import Mathlib

/-!
# Verification of the RFP accelerator workflow orchestrator

A shallow embedding of the orchestration core of the repository
(`rfp_agent/agent.py`, `rfp_agent/workflow/step*.py`,
`rfp_agent/utils/validators.py`) into Lean.

Modelling conventions:

* A Python dict used as the workflow context is an insertion-ordered
  association list `Ctx := List (String × Value)`; assignment (`d[k] = v`,
  `d.update(...)`) keeps the position of an existing key, as CPython does.
* Heterogeneous Python values are the inductive `Value`.
* External services (Drive, Docs, Gemini, NotebookLM, Workspace mail) are an
  oracle record `Ext`.  Each method returns data of exactly the shape the
  integration client in `rfp_agent/integrations/` constructs (those clients
  always build their result dicts with fixed keys), and every external call a
  step makes is recorded in a trace, so "no external call happens" is a
  provable statement.  External calls themselves never fail in this model;
  the failures studied here are the ones produced by the repository code.
* A raised Python exception is `Except.error` of an `Err`; `KeyError(k)` is
  `Err.keyError k`, `ValueError(msg)` is `Err.valueError msg`, and the
  `AttributeError` raised by a lookup of a method that does not exist is
  `Err.attributeError msg`.
* `step2_knowledge_base.py` as stored contains a truncated duplicate of its
  own header and a stray markdown fence; the complete class definition in
  that file (the one ending with the stubbed "test-data-store-id" result) is
  what is embedded here.
-/

namespace RFP

/-- A single quote character, used when building Python error strings. -/
def sq : String := String.mk [Char.ofNat 39]

/-- Python runtime values as they occur in the workflow context and in step
results: `None`, strings, integers, booleans, lists and dicts. -/
inductive Value where
  | vnone : Value
  | str : String → Value
  | int : Int → Value
  | bool : Bool → Value
  | list : List Value → Value
  | dict : List (String × Value) → Value

/-- The workflow context: a Python dict from string keys to values,
represented as an insertion-ordered association list. -/
abbrev Ctx := List (String × Value)

/-- Python dict lookup: the value of the first (unique) binding of `key`. -/
def lookup : Ctx → String → Option Value
  | [], _ => none
  | (k, v) :: rest, key => if k = key then some v else lookup rest key

/-- Python dict assignment `d[key] = v`: overwrite an existing binding in
place, or append a new one. -/
def setKey : Ctx → String → Value → Ctx
  | [], key, v => [(key, v)]
  | (k, w) :: rest, key, v =>
    if k = key then (k, v) :: rest else (k, w) :: setKey rest key v

/-- Python `d.update(us)`: fold the assignments of `us` into `d` in order. -/
def updateAll (ctx : Ctx) (us : List (String × Value)) : Ctx :=
  us.foldl (fun c kv => setKey c kv.1 kv.2) ctx

/-- The key set of a context (association lists built by `setKey` keep keys
unique, and order is irrelevant for the monotonicity claims). -/
def keys (ctx : Ctx) : List String := ctx.map Prod.fst

/-- Python exceptions raised by the embedded code. -/
inductive Err where
  | keyError : String → Err
  | valueError : String → Err
  | typeError : String → Err
  | attributeError : String → Err
deriving DecidableEq

/-- Python `str(e)` for an exception, as appended to the run-state error list:
`str(KeyError(k))` is the repr of the key, i.e. the key in quotes. -/
def errMessage : Err → String
  | .keyError k => sq ++ k ++ sq
  | .valueError m => m
  | .typeError m => m
  | .attributeError m => m

/-- Record of one call to an external system (storage provider, document
editor, generative model, notebook service, messaging service). -/
inductive Call where
  | driveCreateProjectFolder : String → Value → Call
  | driveUploadFile : String → String → Call
  | geminiGenerateQuestions : String → Call
  | geminiDraftAnswers : Call
  | geminiExtractTimeline : String → Call
  | geminiCreatePlan : Call
  | docsCreateDocument : String → Value → Call
  | docsWriteDocument : String → Call
  | driveShareFolder : Value → List Value → Call
  | notebookShareNotebook : Value → List Value → Call
  | workspaceSendNotification : List Value → Call

/-- Calls that touch the messaging service or grant access to resources
(the calls claim C5/C6 say must not happen). -/
def Call.isDistribution : Call → Bool
  | .driveShareFolder _ _ => true
  | .notebookShareNotebook _ _ => true
  | .workspaceSendNotification _ => true
  | _ => false

/-- Effect of running a fragment of step code: the external calls it made (in
order, including the ones made before a failure) and its outcome. -/
structure Res (α : Type) where
  calls : List Call
  result : Except Err α

namespace Res

def pure (a : α) : Res α := ⟨[], .ok a⟩

def bind (x : Res α) (f : α → Res β) : Res β :=
  match x.result with
  | .error e => ⟨x.calls, .error e⟩
  | .ok a =>
    let y := f a
    ⟨x.calls ++ y.calls, y.result⟩

instance : Monad Res where
  pure := Res.pure
  bind := Res.bind

/-- Record one external call. -/
def emit (c : Call) : Res Unit := ⟨[c], .ok ()⟩

/-- Raise an exception. -/
def fail (e : Err) : Res α := ⟨[], .error e⟩

end Res

/-- Embedded `context[k]`: raises `KeyError(k)` when the key is absent. -/
def vget (ctx : Ctx) (k : String) : Res Value :=
  match lookup ctx k with
  | some v => Res.pure v
  | none => Res.fail (.keyError k)

/-- Embedded `v[k]` on a value (e.g. `context['subfolders']['analysis']`): `KeyError`
when the key is absent, `TypeError` when the value is not a dict. -/
def vfield (v : Value) (k : String) : Res Value :=
  match v with
  | .dict xs =>
    match lookup xs k with
    | some w => Res.pure w
    | none => Res.fail (.keyError k)
  | _ => Res.fail (.typeError k)

/-- Read a value that the orchestrator only ever seeds as a string (file
paths, client name, title, date).  A non-string here has no counterpart in
any reachable run, and is reported as a `TypeError`. -/
def asStr (v : Value) : Res String :=
  match v with
  | .str s => Res.pure s
  | _ => Res.fail (.typeError "expected str")

/-- Convert a context value the code iterates as a list of path strings. -/
def asStrAll : List Value → Res (List String)
  | [] => Res.pure []
  | v :: rest => do
    let s ← asStr v
    let others ← asStrAll rest
    Res.pure (s :: others)

/-- Iterate a list of strings as Python values. -/
def strListV (xs : List String) : Value := .list (xs.map .str)

/-- Python truthiness of a value (`if v:`). -/
def valueTruthy : Value → Bool
  | .vnone => false
  | .str s => !s.isEmpty
  | .int n => n != 0
  | .bool b => b
  | .list xs => !xs.isEmpty
  | .dict xs => !xs.isEmpty

/-- Truthiness of a `dict.get` result (`if context.get(k):`). -/
def optTruthy : Option Value → Bool
  | none => false
  | some v => valueTruthy v

/-- The whitespace set of Python `str.strip()` / `\s`. -/
def isPySpace (c : Char) : Bool :=
  c = ' ' || c = '\t' || c = '\n' || c = '\r' ||
    c = Char.ofNat 11 || c = Char.ofNat 12

/-- Python `str.strip()`. -/
def pyStrip (s : String) : String :=
  String.mk (((s.toList.dropWhile isPySpace).reverse.dropWhile isPySpace).reverse)

/-- Python `str.lower()` restricted to ASCII, which is all the code compares. -/
def pyLower (s : String) : String := String.mk (s.toList.map Char.toLower)

/-- Python `str.split(sep)` for a one-character separator, on character lists. -/
def pySplitAux (sep : Char) : List Char → List (List Char)
  | [] => [[]]
  | c :: rest =>
    match pySplitAux sep rest with
    | [] => [[]]
    | grp :: grps => if c = sep then [] :: grp :: grps else (c :: grp) :: grps

/-- Python `s.split(sep)` for a one-character separator. -/
def pySplit (sep : Char) (s : String) : List String :=
  (pySplitAux sep s.toList).map String.mk

/-- Python `s.startswith(pre)`. -/
def pyStartsWith (s pre : String) : Bool :=
  pre.toList.isPrefixOf s.toList

/-- Python `s.endswith(suffix)`. -/
def pyEndsWith (s suffix : String) : Bool :=
  suffix.toList.reverse.isPrefixOf s.toList.reverse

/-- Python `sep.join(xs)`. -/
def pyJoin (sep : String) : List String → String
  | [] => ""
  | [x] => x
  | x :: rest => x ++ sep ++ pyJoin sep rest

/-! ## `rfp_agent/utils/validators.py` -/

/-- Characters of the local part class `[a-zA-Z0-9._%+-]`. -/
def isLocalChar (c : Char) : Bool :=
  c.isAlpha || c.isDigit || c = '.' || c = '_' || c = '%' || c = '+' || c = '-'

/-- Characters of the domain class `[a-zA-Z0-9.-]`. -/
def isDomainChar (c : Char) : Bool :=
  c.isAlpha || c.isDigit || c = '.' || c = '-'

/-- The domain side of the e-mail pattern, `[a-zA-Z0-9.-]+\.[a-zA-Z]{2,}$`.
The final `[a-zA-Z]{2,}` cannot contain a dot, so the regex matches exactly
when splitting at the last dot leaves a non-empty `[a-zA-Z0-9.-]+` part and a
trailing run of at least two letters. -/
def emailDomainOk (domain : List Char) : Bool :=
  let rev := domain.reverse
  let revTld := rev.takeWhile (fun c => c ≠ '.')
  match rev.dropWhile (fun c => c ≠ '.') with
  | '.' :: revPre =>
    !revPre.isEmpty && revPre.all isDomainChar &&
      decide (revTld.length ≥ 2) && revTld.all Char.isAlpha
  | _ => false

/-- Function `validate_email` from `validators.py`: falsy strings are rejected, then
the stripped address must fully match
`^[a-zA-Z0-9._%+-]+@[a-zA-Z0-9.-]+\.[a-zA-Z]{2,}$` (the classes exclude `@`,
so there is exactly one `@` splitting local part from domain). -/
def validate_email (email : String) : Bool :=
  if email = "" then false
  else
    let s := (pyStrip email).toList
    let localPart := s.takeWhile (fun c => c ≠ '@')
    match s.dropWhile (fun c => c ≠ '@') with
    | '@' :: domain =>
      !localPart.isEmpty && localPart.all isLocalChar && emailDomainOk domain
    | _ => false

/-- Function `validate_email` applied to a context value: the `isinstance(email, str)`
guard makes every non-string invalid. -/
def validateEmailValue : Value → Bool
  | .str s => validate_email s
  | _ => false

/-- Characters replaced by `_` in `sanitize_folder_name`. -/
def isInvalidFolderChar (c : Char) : Bool :=
  c = '<' || c = '>' || c = ':' || c = '\"' || c = '/' || c = '\\' ||
    c = '|' || c = '?' || c = '*'

/-- Function `sanitize_folder_name`: replace invalid characters, strip leading and
trailing dots/spaces, truncate to 200 characters. -/
def sanitize_folder_name (name : String) : String :=
  let replaced := name.toList.map (fun c => if isInvalidFolderChar c then '_' else c)
  let isDotSpace : Char → Bool := fun c => c = '.' || c = ' '
  let stripped := ((replaced.dropWhile isDotSpace).reverse.dropWhile isDotSpace).reverse
  String.mk (stripped.take 200)

/-! ## External collaborators

Structured records for the data the integration clients return; the client
code in `rfp_agent/integrations/` always constructs exactly these shapes. -/

/-- Dict of id and url as returned by folder creation, file upload and
document creation. -/
structure FileRef where
  id : String
  url : String

/-- The four subfolders created by `GoogleDriveClient.create_project_folder`. -/
structure SubfolderSet where
  sourceDocuments : FileRef
  analysis : FileRef
  planning : FileRef
  collaboration : FileRef

/-- Result of `create_project_folder`. -/
structure FolderStructure where
  mainFolder : FileRef
  subfolders : SubfolderSet

/-- Result of `DocumentParser.parse_document`: extracted text, the file name
recorded under `file_info`, optional metadata, and optional derived files
(`label ↦ path`).  The shipped parser never produces derived files, but
`IngestionStep` reads the key with a default, so the oracle may supply them. -/
structure ParsedDoc where
  text : String
  fileName : String
  metadata : Value
  derivedFiles : List (String × String)

/-- Result of `DocumentParser.extract_client_info`. -/
structure ExtractedInfo where
  clientName : Option String
  rfpTitle : Option String

/-- One entry of the result lists built by `share_folder`, `share_notebook`
and `send_email`: each entry always carries a `status` string. -/
structure ShareEntry where
  email : Value
  status : String

def FileRef.toValue (f : FileRef) : Value :=
  .dict [("id", .str f.id), ("url", .str f.url)]

def SubfolderSet.toValue (s : SubfolderSet) : Value :=
  .dict [("source_documents", s.sourceDocuments.toValue),
         ("analysis", s.analysis.toValue),
         ("planning", s.planning.toValue),
         ("collaboration", s.collaboration.toValue)]

def FolderStructure.toValue (f : FolderStructure) : Value :=
  .dict [("main_folder_id", .str f.mainFolder.id),
         ("main_folder_url", .str f.mainFolder.url),
         ("subfolders", f.subfolders.toValue)]

def ShareEntry.toValue (r : ShareEntry) : Value :=
  .dict [("email", r.email), ("status", .str r.status)]

def shareListV (rs : List ShareEntry) : Value := .list (rs.map ShareEntry.toValue)

/-- Count of entries with `status == 'success'`. -/
def successCount (rs : List ShareEntry) : Nat :=
  (rs.filter (fun r => r.status = "success")).length

/-- The oracle of external collaborators.  Every method is total: external
calls are assumed to succeed, so the only failures in the model are the ones
the repository code itself produces. -/
structure Ext where
  fileExists : String → Bool
  createProjectFolder : String → Value → FolderStructure
  uploadFile : String → String → FileRef
  parseDocument : String → ParsedDoc
  extractClientInfo : String → ExtractedInfo
  generateQuestions : String → Value → Value → Value
  createDocument : String → Value → FileRef
  extractTimeline : String → List (String × Value)
  createPlan : List (String × Value) → Value → List (String × Value)
  shareFolder : Value → List Value → Value → List ShareEntry
  shareNotebook : Value → List Value → List ShareEntry
  sendNotification : List Value → Value → Value → Value → List ShareEntry

/-! ## Configuration -/

/-- Method `WorkflowStep._get_config_value`: walk a dot-separated path through
nested dicts, returning the default as soon as a segment is missing or the
current value is not a dict. -/
def getConfigValue (config : Value) (keyPath : String) (dflt : Value) : Value :=
  go (pySplit '.' keyPath) config
where
  go : List String → Value → Value
    | [], v => v
    | k :: ks, .dict xs =>
      match lookup xs k with
      | some v => go ks v
      | none => dflt
    | _ :: _, _ => dflt

/-- Method `RFPAcceleratorAgent._get_default_config`, used when no config file is
present. -/
def defaultConfig (gcpProject : String) : Value :=
  .dict [("gcp_project", .str gcpProject),
         ("gemini_model", .str "gemini-1.5-pro-002"),
         ("workflow", .dict [("question_generation",
            .dict [("min_questions", .int 10), ("max_questions", .int 15)])])]

/-! ## Step 1 — `step1_ingestion.py` (`IngestionStep`) -/

/-- One left-to-right pass of `str.format` over the template for the three
field names the call site supplies; the fuel argument (the remaining length)
only makes the recursion structural. -/
def pyFormatAux (clientName rfpTitle date : List Char) :
    Nat → List Char → List Char
  | 0, _ => []
  | _, [] => []
  | fuel + 1, cs =>
    if ("{client_name}".toList).isPrefixOf cs then
      clientName ++ pyFormatAux clientName rfpTitle date fuel
        (cs.drop ("{client_name}".toList.length))
    else if ("{rfp_title}".toList).isPrefixOf cs then
      rfpTitle ++ pyFormatAux clientName rfpTitle date fuel
        (cs.drop ("{rfp_title}".toList.length))
    else if ("{date}".toList).isPrefixOf cs then
      date ++ pyFormatAux clientName rfpTitle date fuel
        (cs.drop ("{date}".toList.length))
    else
      match cs with
      | c :: rest => c :: pyFormatAux clientName rfpTitle date fuel rest
      | [] => []

/-- Python `str.format` on the folder-name template for the three placeholders the
call site supplies. -/
def formatFolderTemplate (template clientName rfpTitle date : String) : String :=
  String.mk (pyFormatAux clientName.toList rfpTitle.toList date.toList
    template.toList.length template.toList)

/-- Method `IngestionStep._create_folder_name`: a non-string template from the
config would have no `.format` method, which surfaces as a type error. -/
def create_folder_name (config : Value) (clientName rfpTitle date : String) :
    Res String := do
  let templateV := getConfigValue config "drive_folder_template"
    (.str "{client_name} - {rfp_title} - {date}")
  let template ← asStr templateV
  Res.pure (sanitize_folder_name (formatFolderTemplate template clientName rfpTitle date))

/-- Upload loop over `doc_info.get('derived_files', {})`.  The upload call is
made, but the subsequent list append uses `Path(derived_path).name` and
`Path` is not imported in `step1_ingestion.py`; the resulting `NameError` is
swallowed by the surrounding `try`, so no entry is produced. -/
def uploadDerivedFiles (ext : Ext) (sourceFolderId : String) :
    List (String × String) → Res Unit
  | [] => Res.pure ()
  | (_, derivedPath) :: rest => do
    let _ := ext.uploadFile derivedPath sourceFolderId
    Res.emit (.driveUploadFile derivedPath sourceFolderId)
    uploadDerivedFiles ext sourceFolderId rest

/-- The `for file_path in context['rfp_files']` loop of step 1: parse each
document, upload it, record its entry, then handle derived files. -/
def step1UploadLoop (ext : Ext) (sourceFolderId : String) :
    List String → Res (List Value)
  | [] => Res.pure []
  | filePath :: rest => do
    let docInfo := ext.parseDocument filePath
    let fileResult := ext.uploadFile filePath sourceFolderId
    Res.emit (.driveUploadFile filePath sourceFolderId)
    uploadDerivedFiles ext sourceFolderId docInfo.derivedFiles
    let others ← step1UploadLoop ext sourceFolderId rest
    Res.pure ((Value.dict [("name", .str docInfo.fileName),
      ("id", .str fileResult.id), ("url", .str fileResult.url),
      ("metadata", docInfo.metadata)]) :: others)

/-- The two conditional in-place context assignments at the end of step 1
(`context['extracted_client_name'] = ...` etc.). -/
def applyExtractedInfo (ctx : Ctx) (info : ExtractedInfo) : Ctx :=
  let ctx1 :=
    match info.clientName with
    | some s =>
      if !s.isEmpty && !optTruthy (lookup ctx "client_name_confirmed") then
        setKey ctx "extracted_client_name" (.str s)
      else ctx
    | none => ctx
  match info.rfpTitle with
  | some s =>
    if !s.isEmpty && !optTruthy (lookup ctx1 "rfp_title_confirmed") then
      setKey ctx1 "extracted_rfp_title" (.str s)
    else ctx1
  | none => ctx1

/-- Method `IngestionStep.execute`.  It both mutates the context in place (the
`extracted_*` keys) and returns a result dict, so it produces the pair. -/
def IngestionStep.execute (ext : Ext) (config : Value) (ctx : Ctx) :
    Res (Ctx × Value) := do
  let clientNameV ← vget ctx "client_name"
  let clientName ← asStr clientNameV
  let rfpTitleV ← vget ctx "rfp_title"
  let rfpTitle ← asStr rfpTitleV
  let dateV ← vget ctx "date"
  let date ← asStr dateV
  let folderName ← create_folder_name config clientName rfpTitle date
  let parentFolderId := getConfigValue config "drive_parent_folder_id" .vnone
  let folderStructure := ext.createProjectFolder folderName parentFolderId
  Res.emit (.driveCreateProjectFolder folderName parentFolderId)
  let sourceFolderId := folderStructure.subfolders.sourceDocuments.id
  let filesV ← vget ctx "rfp_files"
  let files ← (match filesV with
    | .list xs => asStrAll xs
    | _ => Res.fail (.typeError "rfp_files"))
  let uploadedFiles ← step1UploadLoop ext sourceFolderId files
  let ctx2 :=
    match files with
    | [] => ctx
    | firstFile :: _ =>
      applyExtractedInfo ctx (ext.extractClientInfo (ext.parseDocument firstFile).text)
  Res.pure (ctx2, .dict [("status", .str "success"),
    ("folder_structure", folderStructure.toValue),
    ("uploaded_files", .list uploadedFiles),
    ("context_updates", .dict [
      ("folder_id", .str folderStructure.mainFolder.id),
      ("folder_url", .str folderStructure.mainFolder.url),
      ("folder_name", .str folderName),
      ("subfolders", folderStructure.subfolders.toValue),
      ("uploaded_files", .list uploadedFiles)])])

/-! ## Step 2 — `step2_knowledge_base.py` (`KnowledgeBaseStep`)

The class accesses `context['gcp_project']` for the client, and
`context['client_name']`/`context['rfp_title']` for the display name, then
skips the actual Data Store creation ("to prevent timeouts") and returns a
hard-coded result whose `serving_config`/`grounding_source` are `None`. -/

def KnowledgeBaseStep.execute (ctx : Ctx) : Res Value := do
  let _gcp ← vget ctx "gcp_project"
  let _client ← vget ctx "client_name"
  let _title ← vget ctx "rfp_title"
  Res.pure (.dict [("status", .str "success"),
    ("data_store_id", .str "test-data-store-id"),
    ("data_store_name",
      .str "projects/test-project/locations/global/dataStores/test-data-store-id"),
    ("serving_config", .vnone),
    ("context_updates", .dict [
      ("knowledge_base_id", .str "test-data-store-id"),
      ("grounding_source", .vnone)])])

/-! ## Step 3 — `step3_questions.py` (`QuestionGenerationStep`) -/

/-- The combined text step 3 builds:
`"\n\n=== {name} ===\n\n" + text` per parsed document. -/
def combinedTextWithHeaders (ext : Ext) (files : List String) : String :=
  files.foldl (fun acc f =>
    acc ++ "\n\n=== " ++ (ext.parseDocument f).fileName ++ " ===\n\n" ++
      (ext.parseDocument f).text) ""

def QuestionGenerationStep.execute (ext : Ext) (config : Value) (ctx : Ctx) :
    Res Value := do
  let _gcp ← vget ctx "gcp_project"
  let filesV ← vget ctx "rfp_files"
  let files ← (match filesV with
    | .list xs => asStrAll xs
    | _ => Res.fail (.typeError "rfp_files"))
  let combinedText := combinedTextWithHeaders ext files
  let minQuestions := getConfigValue config "workflow.question_generation.min_questions" (.int 10)
  let maxQuestions := getConfigValue config "workflow.question_generation.max_questions" (.int 15)
  let questions := ext.generateQuestions combinedText minQuestions maxQuestions
  Res.emit (.geminiGenerateQuestions combinedText)
  let subfoldersV ← vget ctx "subfolders"
  let analysisV ← vfield subfoldersV "analysis"
  let analysisFolderId ← vfield analysisV "id"
  let questionsDoc := ext.createDocument "Client_Follow-up_Questions" analysisFolderId
  Res.emit (.docsCreateDocument "Client_Follow-up_Questions" analysisFolderId)
  let _client ← vget ctx "client_name"
  let _title ← vget ctx "rfp_title"
  Res.emit (.docsWriteDocument questionsDoc.id)
  Res.pure (.dict [("status", .str "success"),
    ("questions", questions),
    ("questions_doc", questionsDoc.toValue),
    ("context_updates", .dict [
      ("questions", questions),
      ("questions_doc_id", .str questionsDoc.id),
      ("questions_doc_url", .str questionsDoc.url)])])

/-! ## Step 4 — `step4_answers.py` (`AnswerGenerationStep`) -/

/-- The question starters of extraction pattern 2. -/
def question_starters : List String :=
  ["describe", "explain", "provide", "list", "detail", "outline"]

/-- Extraction pattern 1: a stripped line ending in `?` of length > 20. -/
def matchesPattern1 (l : String) : Bool :=
  pyEndsWith l "?" && decide (l.length > 20)

/-- Extraction pattern 2: a stripped line starting (case-insensitively) with
a question starter, of length in (30, 300). -/
def matchesPattern2 (l : String) : Bool :=
  question_starters.any (fun w => pyStartsWith (pyLower l) w) &&
    decide (l.length > 30) && decide (l.length < 300)

/-- Regex substitution of a leading enumeration: remove one leading run of digits
followed by `.` or `)` and any following whitespace.  The regex is anchored,
so it is applied at most once. -/
def stripQuestionNumber (s : String) : String :=
  let cs := s.toList
  let digits := cs.takeWhile Char.isDigit
  if digits.isEmpty then s
  else
    match cs.drop digits.length with
    | c :: rest =>
      if c = '.' || c = ')' then String.mk (rest.dropWhile isPySpace) else s
    | [] => s

/-- Does a string still begin with a numeric enumeration prefix
(digits followed by `.` or `)`)? -/
def startsWithQuestionNumber (s : String) : Bool :=
  let cs := s.toList
  let digits := cs.takeWhile Char.isDigit
  !digits.isEmpty &&
    match cs.drop digits.length with
    | c :: _ => c = '.' || c = ')'
    | [] => false

/-- The fixed fallback questions of `_extract_questions_from_rfp`. -/
def default_questions : List String :=
  ["Describe your company" ++ sq ++ "s experience with similar projects.",
   "Provide details about your proposed methodology and approach.",
   "List the key team members and their qualifications.",
   "Explain your project timeline and milestones.",
   "Describe your quality assurance processes."]

/-- Method `AnswerGenerationStep._extract_questions_from_rfp`: collect pattern-1
lines, then pattern-2 lines not already collected, truncate to 20, fall back
to the default list when nothing matched. -/
def _extract_questions_from_rfp (text : String) : List String :=
  let strippedLines := (pySplit '\n' text).map pyStrip
  let pass1 := strippedLines.foldl (fun acc l =>
    if matchesPattern1 l then acc ++ [stripQuestionNumber l] else acc) []
  let pass2 := strippedLines.foldl (fun acc l =>
    if matchesPattern2 l && !acc.contains (stripQuestionNumber l) then
      acc ++ [stripQuestionNumber l]
    else acc) pass1
  let truncated := if decide (pass2.length > 20) then pass2.take 20 else pass2
  if truncated.isEmpty then default_questions else truncated

/-- Method `AnswerGenerationStep._load_internal_knowledge`: both branches yield the
empty string. -/
def _load_internal_knowledge (config : Value) : String :=
  let knowledgeConfig := getConfigValue config "internal_knowledge_source" (.dict [])
  if !valueTruthy knowledgeConfig then "" else ""

/-- The exception raised at `gemini_client.draft_rfp_answers(...)`:
`GeminiClient` (in `gemini_ai.py`) defines `generate_draft_answers` but no
`draft_rfp_answers`, so the attribute lookup itself raises. -/
def draftAnswersAttributeError : Err :=
  .attributeError (sq ++ "GeminiClient" ++ sq ++ " object has no attribute " ++
    sq ++ "draft_rfp_answers" ++ sq)

/-- Method `AnswerGenerationStep.execute`.  Everything after the
`gemini_client.draft_rfp_answers(...)` line — including the
`context['subfolders']` access and the document creation — is unreachable,
because that attribute lookup always raises `AttributeError`. -/
def AnswerGenerationStep.execute (ext : Ext) (config : Value) (ctx : Ctx) :
    Res Value := do
  let _gcp ← vget ctx "gcp_project"
  let filesV ← vget ctx "rfp_files"
  let files ← (match filesV with
    | .list xs => asStrAll xs
    | _ => Res.fail (.typeError "rfp_files"))
  let combinedText := files.foldl (fun acc f => acc ++ (ext.parseDocument f).text) ""
  let _rfpQuestions := _extract_questions_from_rfp combinedText
  let _companyInfo := getConfigValue config "company_info" (.dict [])
  let _internalKnowledge := _load_internal_knowledge config
  let _groundingSource := lookup ctx "grounding_source"
  Res.fail draftAnswersAttributeError

/-! ## Step 5 — `step5_project_plan.py` (`ProjectPlanStep`) -/

/-- The hard-coded default phase list of step 5. -/
def default_phases_fallback : Value :=
  .list [.str "Discovery & Requirements", .str "Design & Architecture",
    .str "Development & Implementation", .str "Testing & QA",
    .str "Deployment & Training", .str "Support & Maintenance"]

def ProjectPlanStep.execute (ext : Ext) (config : Value) (ctx : Ctx) :
    Res Value := do
  let _gcp ← vget ctx "gcp_project"
  let filesV ← vget ctx "rfp_files"
  let files ← (match filesV with
    | .list xs => asStrAll xs
    | _ => Res.fail (.typeError "rfp_files"))
  let combinedText := files.foldl (fun acc f => acc ++ (ext.parseDocument f).text) ""
  let timelineData := ext.extractTimeline combinedText
  Res.emit (.geminiExtractTimeline combinedText)
  let defaultPhases :=
    getConfigValue config "workflow.project_planning.default_phases" default_phases_fallback
  let plan0 := ext.createPlan timelineData defaultPhases
  Res.emit .geminiCreatePlan
  let plan1 :=
    if (lookup plan0 "timeline").isNone then
      setKey plan0 "timeline" ((lookup timelineData "timeline").getD (.list []))
    else plan0
  let plan2 :=
    if (lookup plan1 "deliverables").isNone then
      setKey plan1 "deliverables" ((lookup timelineData "deliverables").getD (.list []))
    else plan1
  let subfoldersV ← vget ctx "subfolders"
  let planningV ← vfield subfoldersV "planning"
  let planningFolderId ← vfield planningV "id"
  let planDoc := ext.createDocument "Draft_Project_Plan" planningFolderId
  Res.emit (.docsCreateDocument "Draft_Project_Plan" planningFolderId)
  let _client ← vget ctx "client_name"
  let _title ← vget ctx "rfp_title"
  Res.emit (.docsWriteDocument planDoc.id)
  Res.pure (.dict [("status", .str "success"),
    ("timeline_data", .dict timelineData),
    ("project_plan", .dict plan2),
    ("plan_doc", planDoc.toValue),
    ("context_updates", .dict [
      ("timeline_data", .dict timelineData),
      ("project_plan", .dict plan2),
      ("plan_doc_id", .str planDoc.id),
      ("plan_doc_url", .str planDoc.url)])])

/-! ## Step 6 — `step6_collaboration.py` (`CollaborationStep`) -/

/-- The `pending_input` result returned when no team members are present. -/
def CollaborationStep.pendingResult : Value :=
  .dict [("status", .str "pending_input"),
    ("message", .str "Team member email addresses required"),
    ("prompt",
      .str "Please provide a list of team member email addresses to share the project with."),
    ("context_updates", .dict [("awaiting_team_members", .bool true)])]

/-- String content of a value, for the `", ".join(invalid_emails)` message
(every reachable entry is a string). -/
def valueAsStr : Value → String
  | .str s => s
  | _ => ""

def CollaborationStep.execute (ctx : Ctx) : Res Value := do
  let teamV := (lookup ctx "team_members").getD (.list [])
  if !valueTruthy teamV then
    Res.pure CollaborationStep.pendingResult
  else do
    let members ← (match teamV with
      | .list xs => Res.pure xs
      | _ => Res.fail (.typeError "team_members"))
    let validatedMembers := members.filter validateEmailValue
    let invalidEmails := members.filter (fun v => !validateEmailValue v)
    if !invalidEmails.isEmpty then
      Res.pure (.dict [("status", .str "validation_failed"),
        ("validated_members", .list validatedMembers),
        ("invalid_emails", .list invalidEmails),
        ("message", .str ("Invalid email addresses: " ++
          pyJoin ", " (invalidEmails.map valueAsStr))),
        ("context_updates", .dict [
          ("validated_team_members", .list validatedMembers),
          ("invalid_team_members", .list invalidEmails)])])
    else
      Res.pure (.dict [("status", .str "success"),
        ("validated_members", .list validatedMembers),
        ("context_updates", .dict [
          ("validated_team_members", .list validatedMembers),
          ("awaiting_team_members", .bool false)])])

/-! ## Step 7 — `step7_distribution.py` (`DistributionStep`) -/

/-- The `skipped` result returned when there are no validated members. -/
def DistributionStep.skippedResult : Value :=
  .dict [("status", .str "skipped"),
    ("message", .str "No team members provided - skipping distribution"),
    ("context_updates", .dict [])]

def DistributionStep.execute (ext : Ext) (config : Value) (ctx : Ctx) :
    Res Value := do
  let teamV := (lookup ctx "validated_team_members").getD (.list [])
  if !valueTruthy teamV then
    Res.pure DistributionStep.skippedResult
  else do
    let members ← (match teamV with
      | .list xs => Res.pure xs
      | _ => Res.fail (.typeError "validated_team_members"))
    let _gcp ← vget ctx "gcp_project"
    let _sender := getConfigValue config "email_sender" .vnone
    let sharePermission :=
      getConfigValue config "workflow.distribution.share_permissions" (.str "writer")
    let folderIdV ← vget ctx "folder_id"
    let folderShareResults := ext.shareFolder folderIdV members sharePermission
    Res.emit (.driveShareFolder folderIdV members)
    let notebookIdV ← vget ctx "notebook_id"
    let notebookShareResults := ext.shareNotebook notebookIdV members
    Res.emit (.notebookShareNotebook notebookIdV members)
    let resources := Value.dict [
      ("folder_url", (lookup ctx "folder_url").getD .vnone),
      ("notebook_url", (lookup ctx "notebook_url").getD .vnone),
      ("questions_doc_url", (lookup ctx "questions_doc_url").getD .vnone),
      ("answers_doc_url", (lookup ctx "answers_doc_url").getD .vnone),
      ("plan_doc_url", (lookup ctx "plan_doc_url").getD .vnone)]
    let emailEnabled := getConfigValue config "email_enabled" (.bool true)
    let emailResults ←
      if valueTruthy emailEnabled then do
        let clientV ← vget ctx "client_name"
        let titleV ← vget ctx "rfp_title"
        let results := ext.sendNotification members clientV titleV resources
        Res.emit (.workspaceSendNotification members)
        Res.pure results
      else Res.pure []
    Res.pure (.dict [("status", .str "success"),
      ("folder_share_results", shareListV folderShareResults),
      ("notebook_share_results", shareListV notebookShareResults),
      ("email_results", shareListV emailResults),
      ("summary", .dict [
        ("team_members_count", .int (members.length : Int)),
        ("successful_shares", .int (successCount folderShareResults : Int)),
        ("successful_emails", .int (successCount emailResults : Int))]),
      ("context_updates", .dict [
        ("distribution_complete", .bool true),
        ("folder_share_results", shareListV folderShareResults),
        ("email_results", shareListV emailResults)])])

/-! ## The orchestrator — `rfp_agent/agent.py` (`RFPAcceleratorAgent`) -/

/-- Function `validate_file_path`: falsy paths fail, otherwise the path must exist
and be a regular file (delegated to the filesystem oracle). -/
def validate_file_path (ext : Ext) (filePath : String) : Bool :=
  !(filePath = "") && ext.fileExists filePath

/-- Method `RFPAcceleratorAgent._validate_inputs`, with the exceptions it raises. -/
def validate_inputs (ext : Ext) (rfpFiles : List String)
    (clientName rfpTitle : String) (teamMembers : Option (List String)) :
    Except Err Unit :=
  if rfpFiles.isEmpty then
    .error (.valueError "At least one RFP file must be provided")
  else
    match rfpFiles.find? (fun f => !validate_file_path ext f) with
    | some f => .error (.valueError ("Invalid or non-existent file: " ++ f))
    | none =>
      if clientName = "" || pyStrip clientName = "" then
        .error (.valueError "Client name cannot be empty")
      else if rfpTitle = "" || pyStrip rfpTitle = "" then
        .error (.valueError "RFP title cannot be empty")
      else
        match teamMembers with
        | none => .ok ()
        | some team =>
          if team.isEmpty then .ok ()
          else
            match team.find? (fun e => !validate_email e) with
            | some e => .error (.valueError ("Invalid email address: " ++ e))
            | none => .ok ()

/-- The agent's run state (`self.state`). -/
structure RunState where
  status : String
  currentStep : Nat
  results : List (String × Value)
  errors : List String

/-- The state set up in `__init__`. -/
def initialState : RunState := ⟨"initialized", 0, [], []⟩

/-- Key under which a step's result is recorded in `state['results']`. -/
def stepKey (n : Nat) : String := "step_" ++ toString n

/-- The initial workflow context built by `execute_workflow` (`date` is
`datetime.now().strftime('%Y-%m-%d')`, supplied here as `today`). -/
def seedContext (rfpFiles : List String) (clientName rfpTitle : String)
    (teamMembers : Option (List String)) (today gcpProject : String) : Ctx :=
  [("rfp_files", strListV rfpFiles),
   ("client_name", .str clientName),
   ("rfp_title", .str rfpTitle),
   ("date", .str today),
   ("team_members", strListV (teamMembers.getD [])),
   ("gcp_project", .str gcpProject)]

/-- Dispatch of `self.steps[step_num].execute(context)`.  Steps other than
step 1 do not mutate the context in place, so their pair keeps `ctx`.  A
step number outside 1–7 is a `KeyError` on the step registry. -/
def execStep (ext : Ext) (config : Value) (n : Nat) (ctx : Ctx) :
    Res (Ctx × Value) :=
  match n with
  | 1 => IngestionStep.execute ext config ctx
  | 2 => do let r ← KnowledgeBaseStep.execute ctx; Res.pure (ctx, r)
  | 3 => do let r ← QuestionGenerationStep.execute ext config ctx; Res.pure (ctx, r)
  | 4 => do let r ← AnswerGenerationStep.execute ext config ctx; Res.pure (ctx, r)
  | 5 => do let r ← ProjectPlanStep.execute ext config ctx; Res.pure (ctx, r)
  | 6 => do let r ← CollaborationStep.execute ctx; Res.pure (ctx, r)
  | 7 => do let r ← DistributionStep.execute ext config ctx; Res.pure (ctx, r)
  | _ => Res.fail (.keyError (toString n))

/-- Value of context updates in a step result, as a list of assignments.  Every
step result is a dict and every `context_updates` it carries is a dict. -/
def getUpdates (result : Value) : List (String × Value) :=
  match result with
  | .dict fields =>
    match lookup fields "context_updates" with
    | some (.dict us) => us
    | _ => []
  | _ => []

/-- Everything the step loop produces: the external calls made, the step
numbers whose `execute` was invoked (in order), the outcome, and the final
run state. -/
structure LoopOut where
  calls : List Call
  trace : List Nat
  outcome : Except Err Ctx
  state : RunState

/-- The `for step_num in steps_to_run` loop of `execute_workflow`, with the
body of `_execute_step`: set `current_step`, run the step, merge
`context_updates`, record the result; stop at the first raised error. -/
def stepLoop (ext : Ext) (config : Value) :
    List Nat → Ctx → RunState → LoopOut
  | [], ctx, st => ⟨[], [], .ok ctx, st⟩
  | n :: rest, ctx, st =>
    let st1 := {st with currentStep := n}
    let r := execStep ext config n ctx
    match r.result with
    | .error e => ⟨r.calls, [n], .error e, st1⟩
    | .ok (ctx1, result) =>
      let ctx2 := updateAll ctx1 (getUpdates result)
      let st2 := {st1 with results := st1.results ++ [(stepKey n, result)]}
      let tail := stepLoop ext config rest ctx2 st2
      ⟨r.calls ++ tail.calls, n :: tail.trace, tail.outcome, tail.state⟩

/-- What a call to `execute_workflow`/`resume_workflow` produces: external
calls, invoked steps, the returned dict or the propagated exception, and the
agent state afterwards. -/
structure RunOut where
  calls : List Call
  trace : List Nat
  result : Except Err Value
  state : RunState

/-- Method `RFPAcceleratorAgent.execute_workflow`.  Validation runs before the
`try` block, so a validation error propagates without touching the state;
an error inside the loop appends its message to `errors` and marks the run
`failed`; full completion marks it `completed` and returns the
`{'status': 'success', 'context': ..., 'results': ...}` dict. -/
def execute_workflow (ext : Ext) (config : Value) (gcpProject : String)
    (rfpFiles : List String) (clientName rfpTitle : String)
    (teamMembers : Option (List String)) (stepsToRun : Option (List Nat))
    (today : String) (st : RunState) : RunOut :=
  match validate_inputs ext rfpFiles clientName rfpTitle teamMembers with
  | .error e => ⟨[], [], .error e, st⟩
  | .ok () =>
    let steps := stepsToRun.getD [1, 2, 3, 4, 5, 6, 7]
    let ctx0 := seedContext rfpFiles clientName rfpTitle teamMembers today gcpProject
    let loop := stepLoop ext config steps ctx0 st
    match loop.outcome with
    | .ok ctx =>
      let st1 := {loop.state with status := "completed"}
      ⟨loop.calls, loop.trace,
        .ok (.dict [("status", .str "success"), ("context", .dict ctx),
          ("results", .dict st1.results)]), st1⟩
    | .error e =>
      let st1 :=
        {loop.state with
          status := "failed", errors := loop.state.errors ++ [errMessage e]}
      ⟨loop.calls, loop.trace, .error e, st1⟩

/-- Extract the string list a well-formed context stores under `key`. -/
def ctxStrList (ctx : Ctx) (key : String) : Except Err (List String) :=
  match lookup ctx key with
  | none => .error (.keyError key)
  | some (.list xs) => (asStrAll xs).result
  | some _ => .error (.typeError key)

/-- Extract the string a well-formed context stores under `key`. -/
def ctxStr (ctx : Ctx) (key : String) : Except Err String :=
  match lookup ctx key with
  | none => .error (.keyError key)
  | some (.str s) => .ok s
  | some _ => .error (.typeError key)

/-- Field `context.get('team_members')` as the optional string list
`execute_workflow` expects. -/
def ctxTeam (ctx : Ctx) : Except Err (Option (List String)) :=
  match lookup ctx "team_members" with
  | none => Except.ok none
  | some (.list xs) => ((asStrAll xs).result).map some
  | some _ => Except.error (.typeError "team_members")

/-- Method `RFPAcceleratorAgent.resume_workflow`: compute
`steps_to_run = list(range(from_step, 8))`, pull the four top-level fields
out of the supplied context (`context['rfp_files']` etc. raise `KeyError`
when absent, `context.get('team_members')` does not), and re-enter
`execute_workflow` — which re-validates the inputs and builds a fresh seed
context, so no step-produced key of the supplied context survives. -/
def resume_workflow (ext : Ext) (config : Value) (gcpProject : String)
    (ctx : Ctx) (fromStep : Nat) (today : String) (st : RunState) : RunOut :=
  let steps := List.range' fromStep (8 - fromStep)
  let fields : Except Err (List String × String × String × Option (List String)) := do
    let files ← ctxStrList ctx "rfp_files"
    let client ← ctxStr ctx "client_name"
    let title ← ctxStr ctx "rfp_title"
    let team ← ctxTeam ctx
    Except.ok (files, client, title, team)
  match fields with
  | .error e => ⟨[], [], .error e, st⟩
  | .ok (files, client, title, team) =>
    execute_workflow ext config gcpProject files client title team (some steps) today st

/-- The context field of a successful run result. -/
def resultContext (out : RunOut) : Ctx :=
  match out.result with
  | .ok (.dict fields) =>
    match lookup fields "context" with
    | some (.dict c) => c
    | _ => []
  | _ => []

/-- The status string recorded in a step-result dict. -/
def resultStatus (result : Value) : Option Value :=
  match result with
  | .dict fields => lookup fields "status"
  | _ => none

/-- The result recorded for step `n` in a run's final state. -/
def recordedResult (out : RunOut) (n : Nat) : Option Value :=
  lookup out.state.results (stepKey n)

/-! ## A concrete external world, for witnesses and counterexamples -/

/-- A fixed, well-behaved external world: every file exists, every service
call succeeds and returns fixed identifiers. -/
def ext0 : Ext where
  fileExists := fun _ => true
  createProjectFolder := fun _ _ =>
    ⟨⟨"main-id", "main-url"⟩,
     ⟨⟨"src-id", "src-url"⟩, ⟨"analysis-id", "analysis-url"⟩,
      ⟨"planning-id", "planning-url"⟩, ⟨"collab-id", "collab-url"⟩⟩⟩
  uploadFile := fun _ _ => ⟨"file-id", "file-url"⟩
  parseDocument := fun p => ⟨"Sample RFP text.", p, .dict [], []⟩
  extractClientInfo := fun _ => ⟨none, none⟩
  generateQuestions := fun _ _ _ => .list []
  createDocument := fun _ _ => ⟨"doc-id", "doc-url"⟩
  extractTimeline := fun _ => []
  createPlan := fun _ _ => []
  shareFolder := fun _ emails _ => emails.map (fun e => ⟨e, "success"⟩)
  shareNotebook := fun _ emails => emails.map (fun e => ⟨e, "placeholder"⟩)
  sendNotification := fun emails _ _ _ => emails.map (fun e => ⟨e, "success"⟩)

/-- The default configuration for the concrete scenarios. -/
def cfg0 : Value := defaultConfig "gcp-sandpit-intelia"

/-- A run of steps 1–2 only, with an empty collaborator list. -/
def run12 : RunOut :=
  execute_workflow ext0 cfg0 "gcp-sandpit-intelia" ["rfp.txt"] "Acme"
    "Cloud Migration" (some []) (some [1, 2]) "2026-10-12" initialState

/-- The full default-step run with an empty collaborator list. -/
def runFullNoTeam : RunOut :=
  execute_workflow ext0 cfg0 "gcp-sandpit-intelia" ["rfp.txt"] "Acme"
    "Cloud Migration" (some []) none "2026-10-12" initialState

/-- The full default-step run with one valid collaborator. -/
def runFullWithTeam : RunOut :=
  execute_workflow ext0 cfg0 "gcp-sandpit-intelia" ["rfp.txt"] "Acme"
    "Cloud Migration" (some ["project.manager@company.com"]) none
    "2026-10-12" initialState

/-- The run that skips only broken step 4, with an empty collaborator list. -/
def runNoStep4 : RunOut :=
  execute_workflow ext0 cfg0 "gcp-sandpit-intelia" ["rfp.txt"] "Acme"
    "Cloud Migration" (some []) (some [1, 2, 3, 5, 6, 7]) "2026-10-12" initialState

/-- Resuming from step 3 with the context produced by the steps-1–2 run. -/
def resumeFrom3 : RunOut :=
  resume_workflow ext0 cfg0 "gcp-sandpit-intelia" (resultContext run12) 3
    "2026-10-12" initialState

/-- A caller-saved context whose collaborator list holds a malformed
address. -/
def badEmailCtx : Ctx :=
  [("rfp_files", strListV ["rfp.txt"]), ("client_name", .str "Acme"),
   ("rfp_title", .str "T"), ("team_members", .list [.str "not-an-email"])]

/-! ## Library lemmas about contexts and the effect monad -/

theorem lookup_setKey (ctx : Ctx) (k : String) (v : Value) (k' : String) :
    lookup (setKey ctx k v) k' = if k = k' then some v else lookup ctx k' := by
  induction ctx with
  | nil => by_cases h : k = k' <;> simp [setKey, lookup, h]
  | cons kv rest ih =>
    obtain ⟨k0, v0⟩ := kv
    by_cases h0 : k0 = k
    · subst h0
      by_cases h' : k0 = k' <;> simp [setKey, lookup, h']
    · by_cases h' : k0 = k'
      · subst h'
        have : ¬ k = k0 := fun h => h0 h.symm
        simp [setKey, lookup, h0, this]
      · simp [setKey, lookup, h0, h', ih]

theorem keys_subset_setKey (ctx : Ctx) (k : String) (v : Value) :
    keys ctx ⊆ keys (setKey ctx k v) := by
  induction ctx with
  | nil => simp [keys]
  | cons kv rest ih =>
    obtain ⟨k0, v0⟩ := kv
    by_cases h0 : k0 = k
    · simp [setKey, h0, keys]
    · intro x hx
      simp only [keys, setKey, h0, if_false, List.map_cons, List.mem_cons] at hx ⊢
      rcases hx with h | h
      · exact Or.inl h
      · exact Or.inr (ih h)

theorem keys_subset_updateAll (ctx : Ctx) (us : List (String × Value)) :
    keys ctx ⊆ keys (updateAll ctx us) := by
  induction us generalizing ctx with
  | nil => simp [updateAll]
  | cons u us ih =>
    intro x hx
    simpa [updateAll] using ih (setKey ctx u.1 u.2) (keys_subset_setKey ctx u.1 u.2 hx)

theorem Res.result_bind {α β : Type} (x : Res α) (f : α → Res β) :
    (x >>= f).result =
      match x.result with
      | .error e => .error e
      | .ok a => (f a).result := by
  show (Res.bind x f).result = _
  cases hx : x.result <;> simp [Res.bind, hx]

theorem Res.result_pure {α : Type} (a : α) :
    (Res.pure a).result = .ok a := rfl

theorem asStrAll_map_str (xs : List String) :
    asStrAll (xs.map Value.str) = Res.pure xs := by
  induction xs with
  | nil => rfl
  | cons x xs ih => simp [asStrAll, asStr, Bind.bind, Res.bind, ih, Res.pure]

/-! ## Lemmas about the question-extraction folds -/

theorem foldl_guard_mem (g : List String → String → Bool) (f : String → String) :
    ∀ (ls acc : List String) (q : String),
      q ∈ ls.foldl (fun a l => if g a l then a ++ [f l] else a) acc →
      q ∈ acc ∨ ∃ l ∈ ls, q = f l := by
  intro ls
  induction ls with
  | nil => intro acc q h; exact Or.inl (by simpa using h)
  | cons l ls ih =>
    intro acc q h
    simp only [List.foldl_cons] at h
    rcases ih _ q h with h' | ⟨l', hl', hq⟩
    · by_cases hg : g acc l
      · rw [if_pos hg] at h'
        rcases List.mem_append.1 h' with h'' | h''
        · exact Or.inl h''
        · exact Or.inr ⟨l, List.mem_cons_self l ls, by simpa using h''⟩
      · rw [if_neg hg] at h'
        exact Or.inl h'
    · exact Or.inr ⟨l', List.mem_cons_of_mem l hl', hq⟩

theorem foldl_guard_nomatch (g : List String → String → Bool) (f : String → String) :
    ∀ (ls acc : List String), (∀ l ∈ ls, ∀ a, g a l = false) →
      ls.foldl (fun a l => if g a l then a ++ [f l] else a) acc = acc := by
  intro ls
  induction ls with
  | nil => intro acc _; rfl
  | cons l ls ih =>
    intro acc h
    simp only [List.foldl_cons, h l (List.mem_cons_self l ls) acc, if_false]
    exact ih acc (fun l' hl' => h l' (List.mem_cons_of_mem l hl'))

/-! ## Claim C9 — the heuristic question extractor -/

/-- C9 (counterexample).  The claim says every extracted question has any
leading numeric enumeration prefix stripped.  The anchored `re.sub` is
applied only once, so a multi-level enumeration such as `1.2.` loses only its
first component: the extracted question still begins with the numeric prefix
`2.`. -/
theorem nested_enumeration_cex :
    _extract_questions_from_rfp "1.2. What is your approach to data security?" =
      ["2. What is your approach to data security?"] ∧
    startsWithQuestionNumber "2. What is your approach to data security?" = true :=
  ⟨by rfl, by rfl⟩

/-- C9 (amended).  `_extract_questions_from_rfp` is total and bounded: it
returns between 1 and 20 questions; when no stripped line matches either
heuristic it returns the fixed 5-element default list; and every returned
question is either a default question or some stripped input line with one
leading numeric enumeration prefix removed (the removal is not iterated). -/
theorem extract_questions_spec (text : String) :
    (1 ≤ (_extract_questions_from_rfp text).length ∧
      (_extract_questions_from_rfp text).length ≤ 20) ∧
    ((∀ l ∈ (pySplit '\n' text).map pyStrip,
        matchesPattern1 l = false ∧ matchesPattern2 l = false) →
      _extract_questions_from_rfp text = default_questions) ∧
    (∀ q ∈ _extract_questions_from_rfp text,
      q ∈ default_questions ∨
        ∃ l ∈ (pySplit '\n' text).map pyStrip, q = stripQuestionNumber l) := by
  simp only [_extract_questions_from_rfp]
  set L := (pySplit '\n' text).map pyStrip with hL
  set p1 := L.foldl
    (fun acc l => if matchesPattern1 l then acc ++ [stripQuestionNumber l] else acc)
    [] with hp1
  set p2 := L.foldl
    (fun acc l =>
      if matchesPattern2 l && !acc.contains (stripQuestionNumber l) then
        acc ++ [stripQuestionNumber l]
      else acc) p1 with hp2
  refine ⟨?_, ?_, ?_⟩
  · -- bounds
    by_cases h20 : p2.length > 20
    · by_cases hE : (p2.take 20).isEmpty
      · simp [h20, hE, default_questions]
      · have hlen : (p2.take 20).length = 20 := by
          simp [List.length_take, Nat.min_eq_left (le_of_lt h20)]
        simp only [decide_eq_true h20, if_true, hE, Bool.false_eq_true, if_false]
        omega
    · by_cases hE : p2.isEmpty
      · simp [h20, hE, default_questions]
      · have h1 : p2.length ≠ 0 := by
          simpa [List.isEmpty_iff_length_eq_zero] using hE
        simp only [decide_eq_false h20, Bool.false_eq_true, if_false, hE]
        omega
  · -- no line matches either pattern: the defaults come back
    intro h
    have hP1 : p1 = [] := by
      rw [hp1]
      exact foldl_guard_nomatch (fun _ l => matchesPattern1 l) stripQuestionNumber L []
        (fun l hl a => (h l hl).1)
    have hP2 : p2 = [] := by
      rw [hp2, hP1]
      exact foldl_guard_nomatch
        (fun a l => matchesPattern2 l && !a.contains (stripQuestionNumber l))
        stripQuestionNumber L []
        (fun l hl a => by simp [(h l hl).2])
    simp [hP2]
  · -- provenance of each returned question
    intro q hq
    by_cases hsrc : q ∈ p2
    · have := foldl_guard_mem
        (fun a l => matchesPattern2 l && !a.contains (stripQuestionNumber l))
        stripQuestionNumber L p1 q (hp2 ▸ hsrc)
      rcases this with hin1 | hex
      · have := foldl_guard_mem (fun _ l => matchesPattern1 l) stripQuestionNumber
          L [] q (hp1 ▸ hin1)
        rcases this with h0 | hex
        · exact absurd h0 (List.not_mem_nil q)
        · exact Or.inr hex
      · exact Or.inr hex
    · left
      by_cases h20 : p2.length > 20
      · simp only [decide_eq_true h20, if_true] at hq
        by_cases hE : (p2.take 20).isEmpty
        · simpa [hE] using hq
        · exact absurd (List.take_subset 20 p2 (by simpa [hE] using hq)) hsrc
      · simp only [decide_eq_false h20, Bool.false_eq_true, if_false] at hq
        by_cases hE : p2.isEmpty
        · simpa [hE] using hq
        · exact absurd (by simpa [hE] using hq) hsrc

/-- C9 (witness): a text with no matching line yields the default list. -/
theorem extract_questions_spec_witness :
    _extract_questions_from_rfp "no questions present" = default_questions := by
  refine (extract_questions_spec "no questions present").2.1 ?_
  have hL : (pySplit '\n' "no questions present").map pyStrip =
      ["no questions present"] := by rfl
  rw [hL]
  intro l hl
  have : l = "no questions present" := by simpa using hl
  subst this
  exact ⟨by rfl, by rfl⟩

/-! ## Peeling lemmas for the effect monad -/

theorem Res.ok_of_bind {α β : Type} {x : Res α} {f : α → Res β} {b : β}
    (h : (x >>= f).result = .ok b) :
    ∃ a, x.result = .ok a ∧ (f a).result = .ok b := by
  rw [Res.result_bind] at h
  cases hx : x.result with
  | error e => rw [hx] at h; cases h
  | ok a => rw [hx] at h; exact ⟨a, rfl, h⟩

/-- A step wrapped by the dispatcher as `(ctx, ·)` cannot change the
context. -/
theorem res_pair_ok {m : Res Value} {ctx ctx' : Ctx} {res : Value}
    (h : ((m >>= fun r => Res.pure (ctx, r)) : Res (Ctx × Value)).result =
      .ok (ctx', res)) : ctx' = ctx := by
  obtain ⟨a, _, h2⟩ := Res.ok_of_bind h
  rw [Res.result_pure] at h2
  cases h2
  rfl

theorem keys_subset_applyExtractedInfo (ctx : Ctx) (info : ExtractedInfo) :
    keys ctx ⊆ keys (applyExtractedInfo ctx info) := by
  obtain ⟨cn, rt⟩ := info
  unfold applyExtractedInfo
  have step : ∀ (c : Ctx) (o : Option String) (key confirmKey : String),
      keys c ⊆ keys (match o with
        | some s =>
          if !s.isEmpty && !optTruthy (lookup c confirmKey) then
            setKey c key (.str s)
          else c
        | none => c) := by
    intro c o key confirmKey
    cases o with
    | none => exact fun x hx => hx
    | some s =>
      by_cases hcond : (!s.isEmpty && !optTruthy (lookup c confirmKey)) = true
      · simpa [hcond] using keys_subset_setKey c key (.str s)
      · simp only [hcond]
        intro x hx
        simpa using hx
  exact (step ctx cn "extracted_client_name" "client_name_confirmed").trans
    (step _ rt "extracted_rfp_title" "rfp_title_confirmed")

theorem uploadDerivedFiles_ok (ext : Ext) (src : String) :
    ∀ ds : List (String × String), (uploadDerivedFiles ext src ds).result = .ok () := by
  intro ds
  induction ds with
  | nil => rfl
  | cons d ds ih =>
    obtain ⟨label, path⟩ := d
    simp [uploadDerivedFiles, Res.result_bind, Res.emit, ih]

theorem step1UploadLoop_ok (ext : Ext) (src : String) :
    ∀ files : List String,
      (step1UploadLoop ext src files).result =
        .ok (files.map (fun f => Value.dict
          [("name", .str (ext.parseDocument f).fileName),
           ("id", .str (ext.uploadFile f src).id),
           ("url", .str (ext.uploadFile f src).url),
           ("metadata", (ext.parseDocument f).metadata)])) := by
  intro files
  induction files with
  | nil => rfl
  | cons f fs ih =>
    simp [step1UploadLoop, Res.result_bind, Res.emit,
      uploadDerivedFiles_ok ext src, ih, Res.result_pure]

/-- A successful step-1 execution only ever adds keys to the context it was
given (its in-place writes go through `setKey`). -/
theorem step1_ok_ctx {ext : Ext} {config : Value} {ctx ctx' : Ctx} {res : Value}
    (h : (IngestionStep.execute ext config ctx).result = .ok (ctx', res)) :
    keys ctx ⊆ keys ctx' := by
  unfold IngestionStep.execute at h
  obtain ⟨clientNameV, _, h⟩ := Res.ok_of_bind h
  obtain ⟨clientName, _, h⟩ := Res.ok_of_bind h
  obtain ⟨rfpTitleV, _, h⟩ := Res.ok_of_bind h
  obtain ⟨rfpTitle, _, h⟩ := Res.ok_of_bind h
  obtain ⟨dateV, _, h⟩ := Res.ok_of_bind h
  obtain ⟨date, _, h⟩ := Res.ok_of_bind h
  obtain ⟨folderName, _, h⟩ := Res.ok_of_bind h
  obtain ⟨_, _, h⟩ := Res.ok_of_bind h
  obtain ⟨filesV, _, h⟩ := Res.ok_of_bind h
  obtain ⟨files, _, h⟩ := Res.ok_of_bind h
  obtain ⟨uploaded, _, h⟩ := Res.ok_of_bind h
  rw [Res.result_pure] at h
  cases h
  cases files with
  | nil => exact fun x hx => hx
  | cons f0 fs => exact keys_subset_applyExtractedInfo ctx _

/-! ## Claim C4 — context keys grow monotonically -/

/-- C4.  Merging `context_updates` only adds or overwrites keys, and every
step that returns successfully hands the loop a context whose key set
includes everything it was given, so
`keys(context_before) ⊆ keys(context_after)` for every executed step. -/
theorem context_keys_monotone :
    (∀ (ctx : Ctx) (us : List (String × Value)), keys ctx ⊆ keys (updateAll ctx us)) ∧
    (∀ (ext : Ext) (config : Value) (n : Nat) (ctx ctx' : Ctx) (res : Value),
      (execStep ext config n ctx).result = .ok (ctx', res) →
      keys ctx ⊆ keys (updateAll ctx' (getUpdates res))) := by
  refine ⟨keys_subset_updateAll, ?_⟩
  intro ext config n ctx ctx' res h
  have hsub : keys ctx ⊆ keys ctx' := by
    rcases n with _ | _ | _ | _ | _ | _ | _ | _ | n
    · exact absurd h (by simp [execStep, Res.fail])
    · exact step1_ok_ctx h
    · rw [res_pair_ok h]; exact fun x hx => hx
    · rw [res_pair_ok h]; exact fun x hx => hx
    · rw [res_pair_ok h]; exact fun x hx => hx
    · rw [res_pair_ok h]; exact fun x hx => hx
    · rw [res_pair_ok h]; exact fun x hx => hx
    · rw [res_pair_ok h]; exact fun x hx => hx
    · exact absurd h (by simp [execStep, Res.fail])
  exact hsub.trans (keys_subset_updateAll ctx' (getUpdates res))

/-- The successful pair produced by step 1 on the example seed context. -/
def seed0 : Ctx :=
  seedContext ["rfp.txt"] "Acme" "Cloud Migration" (some []) "2026-10-12"
    "gcp-sandpit-intelia"

def step1OkPair : Ctx × Value :=
  match (execStep ext0 cfg0 1 seed0).result with
  | .ok p => p
  | .error _ => ([], .vnone)

/-- C4 (witness): the key `client_name`, present before step 1, is still
present after step 1's updates are merged. -/
theorem context_keys_monotone_witness :
    "client_name" ∈ keys (updateAll step1OkPair.1 (getUpdates step1OkPair.2)) :=
  context_keys_monotone.2 ext0 cfg0 1 seed0 step1OkPair.1 step1OkPair.2 (by rfl)
    (by decide)

/-! ## Claim C3 — failures on missing context keys -/

/-- C3.  A step reaching a required context key that is absent fails with a
`KeyError` naming exactly that key: step 3 on `subfolders`, step 7 on
`folder_id` (before any share call) and on `notebook_id` (after the folder
share).  Step 4, which the claim also names, never reaches its
`subfolders` access: it always fails first with the `AttributeError` for the
nonexistent `draft_rfp_answers` method — an unrelated error. -/
theorem missing_key_failures (ext : Ext) (config : Value) :
    (∀ (ctx : Ctx) (g : Value) (files : List String),
      lookup ctx "gcp_project" = some g →
      lookup ctx "rfp_files" = some (strListV files) →
      lookup ctx "subfolders" = none →
      (QuestionGenerationStep.execute ext config ctx).result =
        .error (.keyError "subfolders")) ∧
    (∀ (ctx : Ctx) (g : Value) (members : List Value),
      lookup ctx "validated_team_members" = some (.list members) →
      members ≠ [] →
      lookup ctx "gcp_project" = some g →
      lookup ctx "folder_id" = none →
      DistributionStep.execute ext config ctx =
        ⟨[], .error (.keyError "folder_id")⟩) ∧
    (∀ (ctx : Ctx) (g fid : Value) (members : List Value),
      lookup ctx "validated_team_members" = some (.list members) →
      members ≠ [] →
      lookup ctx "gcp_project" = some g →
      lookup ctx "folder_id" = some fid →
      lookup ctx "notebook_id" = none →
      (DistributionStep.execute ext config ctx).result =
        .error (.keyError "notebook_id")) ∧
    (∀ (ctx : Ctx) (g : Value) (files : List String),
      lookup ctx "gcp_project" = some g →
      lookup ctx "rfp_files" = some (strListV files) →
      (AnswerGenerationStep.execute ext config ctx).result =
        .error draftAnswersAttributeError) := by
  refine ⟨?_, ?_, ?_, ?_⟩
  · intro ctx g files hg hf hs
    simp [QuestionGenerationStep.execute, vget, hg, hf, hs, strListV,
      asStrAll_map_str, Res.result_bind, Res.result_pure, Res.emit, Res.fail]
  · intro ctx g members hm hne hg hfid
    cases members with
    | nil => exact absurd rfl hne
    | cons m ms =>
      simp [DistributionStep.execute, vget, hm, hg, hfid, valueTruthy,
        Res.result_bind, Res.result_pure, Res.emit, Res.fail, Res.bind,
        Bind.bind, Res.pure]
  · intro ctx g fid members hm hne hg hfid hnb
    cases members with
    | nil => exact absurd rfl hne
    | cons m ms =>
      simp [DistributionStep.execute, vget, hm, hg, hfid, hnb, valueTruthy,
        Res.result_bind, Res.result_pure, Res.emit, Res.fail]
  · intro ctx g files hg hf
    simp [AnswerGenerationStep.execute, vget, hg, hf, strListV,
      asStrAll_map_str, Res.result_bind, Res.result_pure, Res.fail]

/-- A context missing `subfolders` (steps 1–2 never ran). -/
def noSubfoldersCtx : Ctx :=
  [("gcp_project", .str "gcp-sandpit-intelia"), ("rfp_files", strListV ["rfp.txt"])]

/-- A context reaching step 7 with members but no `folder_id`. -/
def noFolderIdCtx : Ctx :=
  [("validated_team_members", .list [.str "pm@example.com"]),
   ("gcp_project", .str "gcp-sandpit-intelia")]

/-- A context reaching step 7 with members and `folder_id` but no
`notebook_id` — exactly what every real run produces, since no step ever
writes `notebook_id`. -/
def noNotebookIdCtx : Ctx :=
  [("validated_team_members", .list [.str "pm@example.com"]),
   ("gcp_project", .str "gcp-sandpit-intelia"), ("folder_id", .str "main-id")]

/-- C3 (witness): the four clauses at concrete contexts. -/
theorem missing_key_failures_witness :
    (QuestionGenerationStep.execute ext0 cfg0 noSubfoldersCtx).result =
      .error (.keyError "subfolders") ∧
    DistributionStep.execute ext0 cfg0 noFolderIdCtx =
      ⟨[], .error (.keyError "folder_id")⟩ ∧
    (DistributionStep.execute ext0 cfg0 noNotebookIdCtx).result =
      .error (.keyError "notebook_id") ∧
    (AnswerGenerationStep.execute ext0 cfg0 noSubfoldersCtx).result =
      .error draftAnswersAttributeError :=
  ⟨(missing_key_failures ext0 cfg0).1 noSubfoldersCtx (.str "gcp-sandpit-intelia")
      ["rfp.txt"] (by rfl) (by rfl) (by rfl),
   (missing_key_failures ext0 cfg0).2.1 noFolderIdCtx (.str "gcp-sandpit-intelia")
      [.str "pm@example.com"] (by rfl) (by simp) (by rfl) (by rfl),
   (missing_key_failures ext0 cfg0).2.2.1 noNotebookIdCtx
      (.str "gcp-sandpit-intelia") (.str "main-id") [.str "pm@example.com"]
      (by rfl) (by simp) (by rfl) (by rfl) (by rfl),
   (missing_key_failures ext0 cfg0).2.2.2 noSubfoldersCtx
      (.str "gcp-sandpit-intelia") ["rfp.txt"] (by rfl) (by rfl)⟩

/-! ## Claim C1 — `resume_workflow` versus `execute_workflow` -/

/-- C1 (code bug).  The context produced by `execute_workflow` over steps
1–2 contains the step-produced key `subfolders`, but resuming from step 3
against that very context fails at step 3 with `KeyError('subfolders')`
(and the run is marked failed after invoking only step 3), whereas the full
`execute_workflow` run records a successful step-3 result.  `resume_workflow`
rebuilds a fresh seed context from the four top-level fields only, so it is
not behaviorally identical to `execute_workflow` on steps `k..7`. -/
theorem resume_drops_step_outputs :
    (lookup (resultContext run12) "subfolders").isSome = true ∧
    resumeFrom3.result = .error (.keyError "subfolders") ∧
    resumeFrom3.trace = [3] ∧
    resumeFrom3.state.status = "failed" ∧
    (recordedResult runFullNoTeam 3).bind resultStatus = some (.str "success") :=
  ⟨by rfl, by rfl, by rfl, by rfl, by rfl⟩

/-! ## Claim C8 — the full default-step run -/

/-- C8 (code bug).  With valid inputs and `steps_to_run` omitted the run
does invoke steps 1,2,3,4 in order, but it stops there: step 4 calls
`gemini_client.draft_rfp_answers`, a method `GeminiClient` does not define,
so every full run fails with an `AttributeError` and the state ends
`failed`, never `completed` — with an empty collaborator list and with a
valid non-empty one alike. -/
theorem full_run_fails_at_step4 :
    runFullNoTeam.result = .error draftAnswersAttributeError ∧
    runFullNoTeam.trace = [1, 2, 3, 4] ∧
    runFullNoTeam.state.status = "failed" ∧
    runFullNoTeam.state.errors = [errMessage draftAnswersAttributeError] ∧
    runFullWithTeam.result = .error draftAnswersAttributeError ∧
    runFullWithTeam.trace = [1, 2, 3, 4] :=
  ⟨by rfl, by rfl, by rfl, by rfl, by rfl, by rfl⟩

/-! ## Symbolic execution of a full run that avoids broken step 4

The lemmas below execute steps 1, 2, 3, 5, 6, 7 symbolically, for an
arbitrary external world and arbitrary valid inputs, characterising each
recorded step result; `no_step4_run_completes` chains them through the step
loop. -/

theorem lookup_applyExtractedInfo (ctx : Ctx) (info : ExtractedInfo) (k : String)
    (h1 : k ≠ "extracted_client_name") (h2 : k ≠ "extracted_rfp_title") :
    lookup (applyExtractedInfo ctx info) k = lookup ctx k := by
  obtain ⟨cn, rt⟩ := info
  unfold applyExtractedInfo
  have step : ∀ (c : Ctx) (o : Option String) (key confirmKey : String),
      key ≠ k →
      lookup (match o with
        | some s =>
          if !s.isEmpty && !optTruthy (lookup c confirmKey) then
            setKey c key (.str s)
          else c
        | none => c) k = lookup c k := by
    intro c o key confirmKey hkey
    cases o with
    | none => rfl
    | some s =>
      by_cases hcond : (!s.isEmpty && !optTruthy (lookup c confirmKey)) = true
      · simp [hcond, lookup_setKey, hkey]
      · simp [hcond]
  rw [step _ rt "extracted_rfp_title" "rfp_title_confirmed" (fun h => h2 h.symm),
      step _ cn "extracted_client_name" "client_name_confirmed" (fun h => h1 h.symm)]

theorem asStrAll_result_cons (s : String) (xs : List String) :
    (asStrAll (Value.str s :: xs.map Value.str)).result = .ok (s :: xs) := by
  have h := asStrAll_map_str (s :: xs)
  simpa [List.map_cons] using congrArg Res.result h

theorem stepLoop_cons_ok (ext : Ext) (config : Value) (n : Nat) (rest : List Nat)
    (ctx ctx1 : Ctx) (res : Value) (st : RunState)
    (h : (execStep ext config n ctx).result = .ok (ctx1, res)) :
    stepLoop ext config (n :: rest) ctx st =
      ⟨(execStep ext config n ctx).calls ++
          (stepLoop ext config rest (updateAll ctx1 (getUpdates res))
            {st with
              currentStep := n, results := st.results ++ [(stepKey n, res)]}).calls,
        n :: (stepLoop ext config rest (updateAll ctx1 (getUpdates res))
            {st with
              currentStep := n, results := st.results ++ [(stepKey n, res)]}).trace,
        (stepLoop ext config rest (updateAll ctx1 (getUpdates res))
            {st with
              currentStep := n, results := st.results ++ [(stepKey n, res)]}).outcome,
        (stepLoop ext config rest (updateAll ctx1 (getUpdates res))
            {st with
              currentStep := n, results := st.results ++ [(stepKey n, res)]}).state⟩ := by
  simp only [stepLoop, h]

-- Step 1 result lemma over the default config

def step2ResultDict : Value :=
  .dict [("status", .str "success"),
    ("data_store_id", .str "test-data-store-id"),
    ("data_store_name",
      .str "projects/test-project/locations/global/dataStores/test-data-store-id"),
    ("serving_config", .vnone),
    ("context_updates", .dict [
      ("knowledge_base_id", .str "test-data-store-id"),
      ("grounding_source", .vnone)])]

theorem step2_result (ext : Ext) (config : Value) (ctx : Ctx) (g c t : Value)
    (hg : lookup ctx "gcp_project" = some g)
    (hc : lookup ctx "client_name" = some c)
    (ht : lookup ctx "rfp_title" = some t) :
    (execStep ext config 2 ctx).result = .ok (ctx, step2ResultDict) := by
  simp [execStep, KnowledgeBaseStep.execute, vget, hg, hc, ht, step2ResultDict,
    Res.result_bind, Res.result_pure, Res.pure]

def step3ResultDict (ext : Ext) (files : List String) (minQ maxQ : Value)
    (analysisId : Value) : Value :=
  .dict [("status", .str "success"),
    ("questions", ext.generateQuestions (combinedTextWithHeaders ext files) minQ maxQ),
    ("questions_doc",
      (ext.createDocument "Client_Follow-up_Questions" analysisId).toValue),
    ("context_updates", .dict [
      ("questions", ext.generateQuestions (combinedTextWithHeaders ext files) minQ maxQ),
      ("questions_doc_id",
        .str (ext.createDocument "Client_Follow-up_Questions" analysisId).id),
      ("questions_doc_url",
        .str (ext.createDocument "Client_Follow-up_Questions" analysisId).url)])]

theorem step3_result (ext : Ext) (gcp : String) (ctx : Ctx) (g c t : Value)
    (f0 : String) (fs : List String) (sf : SubfolderSet)
    (hg : lookup ctx "gcp_project" = some g)
    (hf : lookup ctx "rfp_files" = some (strListV (f0 :: fs)))
    (hs : lookup ctx "subfolders" = some sf.toValue)
    (hc : lookup ctx "client_name" = some c)
    (ht : lookup ctx "rfp_title" = some t) :
    (execStep ext (defaultConfig gcp) 3 ctx).result =
      .ok (ctx, step3ResultDict ext (f0 :: fs) (.int 10) (.int 15)
        (.str sf.analysis.id)) := by
  simp [execStep, QuestionGenerationStep.execute, vget, vfield, hg, hf, hs, hc,
    ht, strListV, asStrAll_result_cons, getConfigValue, getConfigValue.go,
    defaultConfig, pySplit, pySplitAux, lookup, SubfolderSet.toValue,
    FileRef.toValue, step3ResultDict, Res.result_bind, Res.result_pure,
    Res.emit, Res.pure]

def step5TimelineData (ext : Ext) (files : List String) : List (String × Value) :=
  ext.extractTimeline (files.foldl (fun acc f => acc ++ (ext.parseDocument f).text) "")

def step5Plan (ext : Ext) (files : List String) : List (String × Value) :=
  let timelineData := step5TimelineData ext files
  let plan0 := ext.createPlan timelineData default_phases_fallback
  let plan1 :=
    if (lookup plan0 "timeline").isNone then
      setKey plan0 "timeline" ((lookup timelineData "timeline").getD (.list []))
    else plan0
  if (lookup plan1 "deliverables").isNone then
    setKey plan1 "deliverables" ((lookup timelineData "deliverables").getD (.list []))
  else plan1

def step5ResultDict (ext : Ext) (files : List String) (planningId : Value) : Value :=
  .dict [("status", .str "success"),
    ("timeline_data", .dict (step5TimelineData ext files)),
    ("project_plan", .dict (step5Plan ext files)),
    ("plan_doc", (ext.createDocument "Draft_Project_Plan" planningId).toValue),
    ("context_updates", .dict [
      ("timeline_data", .dict (step5TimelineData ext files)),
      ("project_plan", .dict (step5Plan ext files)),
      ("plan_doc_id", .str (ext.createDocument "Draft_Project_Plan" planningId).id),
      ("plan_doc_url", .str (ext.createDocument "Draft_Project_Plan" planningId).url)])]

theorem step5_result (ext : Ext) (gcp : String) (ctx : Ctx) (g c t : Value)
    (f0 : String) (fs : List String) (sf : SubfolderSet)
    (hg : lookup ctx "gcp_project" = some g)
    (hf : lookup ctx "rfp_files" = some (strListV (f0 :: fs)))
    (hs : lookup ctx "subfolders" = some sf.toValue)
    (hc : lookup ctx "client_name" = some c)
    (ht : lookup ctx "rfp_title" = some t) :
    (execStep ext (defaultConfig gcp) 5 ctx).result =
      .ok (ctx, step5ResultDict ext (f0 :: fs) (.str sf.planning.id)) := by
  simp [execStep, ProjectPlanStep.execute, vget, vfield, hg, hf, hs, hc, ht,
    strListV, asStrAll_result_cons, getConfigValue, getConfigValue.go,
    defaultConfig, pySplit, pySplitAux, lookup, SubfolderSet.toValue,
    FileRef.toValue, step5ResultDict, step5TimelineData, step5Plan,
    Res.result_bind, Res.result_pure, Res.emit, Res.pure]

theorem step6_result_empty (ext : Ext) (config : Value) (ctx : Ctx)
    (h : lookup ctx "team_members" = some (.list [])) :
    (execStep ext config 6 ctx).result = .ok (ctx, CollaborationStep.pendingResult) := by
  simp [execStep, CollaborationStep.execute, h, valueTruthy, Res.result_bind,
    Res.result_pure, Res.pure]

theorem step7_result_skipped (ext : Ext) (config : Value) (ctx : Ctx)
    (h : lookup ctx "validated_team_members" = none) :
    (execStep ext config 7 ctx).result = .ok (ctx, DistributionStep.skippedResult) := by
  simp [execStep, DistributionStep.execute, h, valueTruthy, Res.result_bind,
    Res.result_pure, Res.pure]

def step1FolderName (client title date : String) : String :=
  sanitize_folder_name
    (formatFolderTemplate "{client_name} - {rfp_title} - {date}" client title date)

def step1Entries (ext : Ext) (src : String) (files : List String) : List Value :=
  files.map (fun f => Value.dict
    [("name", .str (ext.parseDocument f).fileName),
     ("id", .str (ext.uploadFile f src).id),
     ("url", .str (ext.uploadFile f src).url),
     ("metadata", (ext.parseDocument f).metadata)])

def step1ResultDict (ext : Ext) (folderName : String) (files : List String) : Value :=
  .dict [("status", .str "success"),
    ("folder_structure", (ext.createProjectFolder folderName .vnone).toValue),
    ("uploaded_files", .list (step1Entries ext
      (ext.createProjectFolder folderName .vnone).subfolders.sourceDocuments.id files)),
    ("context_updates", .dict [
      ("folder_id", .str (ext.createProjectFolder folderName .vnone).mainFolder.id),
      ("folder_url", .str (ext.createProjectFolder folderName .vnone).mainFolder.url),
      ("folder_name", .str folderName),
      ("subfolders", (ext.createProjectFolder folderName .vnone).subfolders.toValue),
      ("uploaded_files", .list (step1Entries ext
        (ext.createProjectFolder folderName .vnone).subfolders.sourceDocuments.id
        files))])]

theorem step1_result_A (ext : Ext) (gcp : String) (ctx : Ctx)
    (client title date : String) (f0 : String) (fs : List String)
    (hc : lookup ctx "client_name" = some (.str client))
    (ht : lookup ctx "rfp_title" = some (.str title))
    (hd : lookup ctx "date" = some (.str date))
    (hf : lookup ctx "rfp_files" = some (strListV (f0 :: fs))) :
    (execStep ext (defaultConfig gcp) 1 ctx).result =
      .ok (applyExtractedInfo ctx (ext.extractClientInfo (ext.parseDocument f0).text),
        step1ResultDict ext (step1FolderName client title date) (f0 :: fs)) := by
  simp [execStep, IngestionStep.execute, vget, hc, ht, hd, hf, asStr,
    create_folder_name, getConfigValue, getConfigValue.go, defaultConfig,
    pySplit, pySplitAux, lookup, strListV, asStrAll_result_cons,
    step1UploadLoop_ok, Res.result_bind, Res.result_pure, Res.emit,
    Res.pure, step1ResultDict, step1FolderName, step1Entries]

set_option maxHeartbeats 2000000 in
theorem no_step4_run_completes (ext : Ext) (gcp : String) (f0 : String)
    (fs : List String) (client title today : String) (st : RunState)
    (hfv : ∀ f ∈ (f0 :: fs), validate_file_path ext f = true)
    (hc : pyStrip client ≠ "") (ht : pyStrip title ≠ "") :
    (execute_workflow ext (defaultConfig gcp) gcp (f0 :: fs) client title
        (some []) (some [1, 2, 3, 5, 6, 7]) today st).state.status = "completed" ∧
    (execute_workflow ext (defaultConfig gcp) gcp (f0 :: fs) client title
        (some []) (some [1, 2, 3, 5, 6, 7]) today st).state.results =
      st.results ++
        [(stepKey 1, step1ResultDict ext (step1FolderName client title today) (f0 :: fs)),
         (stepKey 2, step2ResultDict),
         (stepKey 3, step3ResultDict ext (f0 :: fs) (.int 10) (.int 15)
           (.str (ext.createProjectFolder (step1FolderName client title today)
             .vnone).subfolders.analysis.id)),
         (stepKey 5, step5ResultDict ext (f0 :: fs)
           (.str (ext.createProjectFolder (step1FolderName client title today)
             .vnone).subfolders.planning.id)),
         (stepKey 6, CollaborationStep.pendingResult),
         (stepKey 7, DistributionStep.skippedResult)] := by
  have hfind : (f0 :: fs).find? (fun f => !validate_file_path ext f) = none :=
    List.find?_eq_none.mpr (fun f hf => by simp [hfv f hf])
  have hc0 : client ≠ "" := fun h => hc (by simp [h, pyStrip, isPySpace])
  have ht0 : title ≠ "" := fun h => ht (by simp [h, pyStrip, isPySpace])
  have hval : validate_inputs ext (f0 :: fs) client title (some []) = .ok () := by
    simp [validate_inputs, hfind, hc0, hc, ht0, ht]
  set fname := step1FolderName client title today with hfname
  set sf := (ext.createProjectFolder fname .vnone).subfolders with hsf
  set ctx0 := seedContext (f0 :: fs) client title (some []) today gcp with hctx0
  set info := ext.extractClientInfo (ext.parseDocument f0).text with hinfo
  set ctxA := applyExtractedInfo ctx0 info with hctxA
  -- facts about the seed context
  have s_client : lookup ctx0 "client_name" = some (.str client) := by
    simp [hctx0, seedContext, lookup]
  have s_title : lookup ctx0 "rfp_title" = some (.str title) := by
    simp [hctx0, seedContext, lookup]
  have s_date : lookup ctx0 "date" = some (.str today) := by
    simp [hctx0, seedContext, lookup]
  have s_files : lookup ctx0 "rfp_files" = some (strListV (f0 :: fs)) := by
    simp [hctx0, seedContext, lookup]
  set res1 := step1ResultDict ext fname (f0 :: fs) with hres1
  set ctx1 := updateAll ctxA (getUpdates res1) with hctx1
  have u1 : getUpdates res1 =
      [("folder_id", .str (ext.createProjectFolder fname .vnone).mainFolder.id),
       ("folder_url", .str (ext.createProjectFolder fname .vnone).mainFolder.url),
       ("folder_name", .str fname),
       ("subfolders", sf.toValue),
       ("uploaded_files", .list (step1Entries ext sf.sourceDocuments.id (f0 :: fs)))] := by
    simp [hres1, step1ResultDict, getUpdates, lookup, hsf]
  have l1 : ∀ k, k ≠ "folder_id" → k ≠ "folder_url" → k ≠ "folder_name" →
      k ≠ "subfolders" → k ≠ "uploaded_files" → k ≠ "extracted_client_name" →
      k ≠ "extracted_rfp_title" → lookup ctx1 k = lookup ctx0 k := by
    intro k h1 h2 h3 h4 h5 h6 h7
    rw [hctx1, u1]
    simp [updateAll, lookup_setKey, Ne.symm h1, Ne.symm h2, Ne.symm h3,
      Ne.symm h4, Ne.symm h5, lookup_applyExtractedInfo ctx0 info k h6 h7, hctxA]
  have l1sub : lookup ctx1 "subfolders" = some sf.toValue := by
    rw [hctx1, u1]
    simp [updateAll, lookup_setKey]
  have s_gcp : lookup ctx0 "gcp_project" = some (.str gcp) := by
    simp [hctx0, seedContext, lookup]
  have s_team : lookup ctx0 "team_members" = some (.list []) := by
    simp [hctx0, seedContext, lookup, strListV]
  have s_vteam : lookup ctx0 "validated_team_members" = none := by
    simp [hctx0, seedContext, lookup]
  set res2 := step2ResultDict with hres2
  set ctx2 := updateAll ctx1 (getUpdates res2) with hctx2
  have u2 : getUpdates res2 =
      [("knowledge_base_id", .str "test-data-store-id"), ("grounding_source", .vnone)] := by
    simp [hres2, step2ResultDict, getUpdates, lookup]
  have l2 : ∀ k, k ≠ "knowledge_base_id" → k ≠ "grounding_source" →
      lookup ctx2 k = lookup ctx1 k := by
    intro k h1 h2
    rw [hctx2, u2]
    simp [updateAll, lookup_setKey, Ne.symm h1, Ne.symm h2]
  set res3 := step3ResultDict ext (f0 :: fs) (.int 10) (.int 15) (.str sf.analysis.id)
    with hres3
  set ctx3 := updateAll ctx2 (getUpdates res3) with hctx3
  have u3 : getUpdates res3 =
      [("questions", ext.generateQuestions (combinedTextWithHeaders ext (f0 :: fs)) (.int 10) (.int 15)),
       ("questions_doc_id", .str (ext.createDocument "Client_Follow-up_Questions" (.str sf.analysis.id)).id),
       ("questions_doc_url", .str (ext.createDocument "Client_Follow-up_Questions" (.str sf.analysis.id)).url)] := by
    simp [hres3, step3ResultDict, getUpdates, lookup]
  have l3 : ∀ k, k ≠ "questions" → k ≠ "questions_doc_id" → k ≠ "questions_doc_url" →
      lookup ctx3 k = lookup ctx2 k := by
    intro k h1 h2 h3
    rw [hctx3, u3]
    simp [updateAll, lookup_setKey, Ne.symm h1, Ne.symm h2, Ne.symm h3]
  set res5 := step5ResultDict ext (f0 :: fs) (.str sf.planning.id) with hres5
  set ctx5 := updateAll ctx3 (getUpdates res5) with hctx5
  have u5 : getUpdates res5 =
      [("timeline_data", .dict (step5TimelineData ext (f0 :: fs))),
       ("project_plan", .dict (step5Plan ext (f0 :: fs))),
       ("plan_doc_id", .str (ext.createDocument "Draft_Project_Plan" (.str sf.planning.id)).id),
       ("plan_doc_url", .str (ext.createDocument "Draft_Project_Plan" (.str sf.planning.id)).url)] := by
    simp [hres5, step5ResultDict, getUpdates, lookup]
  have l5 : ∀ k, k ≠ "timeline_data" → k ≠ "project_plan" → k ≠ "plan_doc_id" →
      k ≠ "plan_doc_url" → lookup ctx5 k = lookup ctx3 k := by
    intro k h1 h2 h3 h4
    rw [hctx5, u5]
    simp [updateAll, lookup_setKey, Ne.symm h1, Ne.symm h2, Ne.symm h3, Ne.symm h4]
  set res6 := CollaborationStep.pendingResult with hres6
  set ctx6 := updateAll ctx5 (getUpdates res6) with hctx6
  have u6 : getUpdates res6 = [("awaiting_team_members", .bool true)] := by
    simp [hres6, CollaborationStep.pendingResult, getUpdates, lookup]
  -- the lookup facts each step needs
  have q_gcp1 : lookup ctx1 "gcp_project" = some (.str gcp) := by
    rw [l1 _ (by decide) (by decide) (by decide) (by decide) (by decide) (by decide) (by decide)]
    exact s_gcp
  have q_client1 : lookup ctx1 "client_name" = some (.str client) := by
    rw [l1 _ (by decide) (by decide) (by decide) (by decide) (by decide) (by decide) (by decide)]
    exact s_client
  have q_title1 : lookup ctx1 "rfp_title" = some (.str title) := by
    rw [l1 _ (by decide) (by decide) (by decide) (by decide) (by decide) (by decide) (by decide)]
    exact s_title
  have q_files1 : lookup ctx1 "rfp_files" = some (strListV (f0 :: fs)) := by
    rw [l1 _ (by decide) (by decide) (by decide) (by decide) (by decide) (by decide) (by decide)]
    exact s_files
  have q_gcp2 : lookup ctx2 "gcp_project" = some (.str gcp) := by
    rw [l2 _ (by decide) (by decide)]; exact q_gcp1
  have q_client2 : lookup ctx2 "client_name" = some (.str client) := by
    rw [l2 _ (by decide) (by decide)]; exact q_client1
  have q_title2 : lookup ctx2 "rfp_title" = some (.str title) := by
    rw [l2 _ (by decide) (by decide)]; exact q_title1
  have q_files2 : lookup ctx2 "rfp_files" = some (strListV (f0 :: fs)) := by
    rw [l2 _ (by decide) (by decide)]; exact q_files1
  have q_sub2 : lookup ctx2 "subfolders" = some sf.toValue := by
    rw [l2 _ (by decide) (by decide)]; exact l1sub
  have q_gcp3 : lookup ctx3 "gcp_project" = some (.str gcp) := by
    rw [l3 _ (by decide) (by decide) (by decide)]; exact q_gcp2
  have q_client3 : lookup ctx3 "client_name" = some (.str client) := by
    rw [l3 _ (by decide) (by decide) (by decide)]; exact q_client2
  have q_title3 : lookup ctx3 "rfp_title" = some (.str title) := by
    rw [l3 _ (by decide) (by decide) (by decide)]; exact q_title2
  have q_files3 : lookup ctx3 "rfp_files" = some (strListV (f0 :: fs)) := by
    rw [l3 _ (by decide) (by decide) (by decide)]; exact q_files2
  have q_sub3 : lookup ctx3 "subfolders" = some sf.toValue := by
    rw [l3 _ (by decide) (by decide) (by decide)]; exact q_sub2
  have q_team5 : lookup ctx5 "team_members" = some (.list []) := by
    rw [l5 _ (by decide) (by decide) (by decide) (by decide),
      l3 _ (by decide) (by decide) (by decide), l2 _ (by decide) (by decide),
      l1 _ (by decide) (by decide) (by decide) (by decide) (by decide) (by decide) (by decide)]
    exact s_team
  have q_vteam6 : lookup ctx6 "validated_team_members" = none := by
    rw [hctx6, u6]
    simp only [updateAll, List.foldl_cons, List.foldl_nil]
    rw [lookup_setKey]
    simp only [if_false, String.reduceEq, reduceIte]
    rw [l5 _ (by decide) (by decide) (by decide) (by decide),
      l3 _ (by decide) (by decide) (by decide), l2 _ (by decide) (by decide),
      l1 _ (by decide) (by decide) (by decide) (by decide) (by decide) (by decide) (by decide)]
    exact s_vteam
  -- per-step executions
  have e1 := step1_result_A ext gcp ctx0 client title today f0 fs s_client s_title s_date s_files
  have e2 := step2_result ext (defaultConfig gcp) ctx1 _ _ _ q_gcp1 q_client1 q_title1
  have e3 := step3_result ext gcp ctx2 _ _ _ f0 fs sf q_gcp2 q_files2 q_sub2 q_client2 q_title2
  have e5 := step5_result ext gcp ctx3 _ _ _ f0 fs sf q_gcp3 q_files3 q_sub3 q_client3 q_title3
  have e6 := step6_result_empty ext (defaultConfig gcp) ctx5 q_team5
  have e7 := step7_result_skipped ext (defaultConfig gcp) ctx6 q_vteam6
  -- chain the loop
  simp only [execute_workflow, hval, Option.getD_some]
  rw [← hctx0]
  rw [stepLoop_cons_ok ext (defaultConfig gcp) 1 [2, 3, 5, 6, 7] ctx0 ctxA res1 st e1]
  rw [← hctx1]
  rw [stepLoop_cons_ok ext (defaultConfig gcp) 2 [3, 5, 6, 7] ctx1 ctx1 res2 _ e2]
  rw [← hctx2]
  rw [stepLoop_cons_ok ext (defaultConfig gcp) 3 [5, 6, 7] ctx2 ctx2 res3 _ e3]
  rw [← hctx3]
  rw [stepLoop_cons_ok ext (defaultConfig gcp) 5 [6, 7] ctx3 ctx3 res5 _ e5]
  rw [← hctx5]
  rw [stepLoop_cons_ok ext (defaultConfig gcp) 6 [7] ctx5 ctx5 res6 _ e6]
  rw [← hctx6]
  rw [stepLoop_cons_ok ext (defaultConfig gcp) 7 [] ctx6 ctx6 DistributionStep.skippedResult _ e7]
  simp only [stepLoop]
  constructor
  · trivial
  · simp [List.append_assoc]

/-! ## Claim C5 — empty collaborator list -/

/-- C5 (code bug).  Whenever step 6 sees an empty collaborator list it
returns `pending_input` with no external call, and whenever step 7 sees no
validated collaborators it returns `skipped` with no external call — but the
claim's final conjunct fails: the overall default-step run does not complete,
because step 4 always raises the `draft_rfp_answers` `AttributeError` first.
A run that leaves broken step 4 out does complete — proved for every
external world and all valid inputs via `no_step4_run_completes` — with
step 6 recorded `pending_input`, step 7 recorded `skipped`, and no
messaging or access-grant call anywhere in the concrete run. -/
theorem empty_team_semantics (ext : Ext) (config : Value) :
    (∀ ctx : Ctx, lookup ctx "team_members" = some (.list []) →
      CollaborationStep.execute ctx = ⟨[], .ok CollaborationStep.pendingResult⟩) ∧
    (∀ ctx : Ctx,
      lookup ctx "validated_team_members" = none ∨
        lookup ctx "validated_team_members" = some (.list []) →
      DistributionStep.execute ext config ctx =
        ⟨[], .ok DistributionStep.skippedResult⟩) ∧
    (runFullNoTeam.result = .error draftAnswersAttributeError ∧
      runFullNoTeam.state.status = "failed" ∧
      runFullNoTeam.calls.all (fun c => !c.isDistribution) = true) ∧
    (runNoStep4.state.status = "completed" ∧
      (recordedResult runNoStep4 6).bind resultStatus = some (.str "pending_input") ∧
      (recordedResult runNoStep4 7).bind resultStatus = some (.str "skipped") ∧
      runNoStep4.calls.all (fun c => !c.isDistribution) = true) ∧
    (∀ (gcp f0 : String) (fs : List String) (client title today : String)
        (st : RunState),
      (∀ f ∈ (f0 :: fs), validate_file_path ext f = true) →
      pyStrip client ≠ "" → pyStrip title ≠ "" →
      (execute_workflow ext (defaultConfig gcp) gcp (f0 :: fs) client title
        (some []) (some [1, 2, 3, 5, 6, 7]) today st).state.status = "completed") := by
  refine ⟨?_, ?_, ⟨by rfl, by rfl, by rfl⟩, ⟨by rfl, by rfl, by rfl, by rfl⟩, ?_⟩
  · intro ctx h
    simp [CollaborationStep.execute, h, valueTruthy, Res.pure]
  · intro ctx h
    rcases h with h | h <;>
      simp [DistributionStep.execute, h, valueTruthy, Res.pure]
  · intro gcp f0 fs client title today st hfv hc ht
    exact (no_step4_run_completes ext gcp f0 fs client title today st hfv hc ht).1

/-- C5 (witness): the two per-step clauses at concrete contexts. -/
theorem empty_team_semantics_witness :
    CollaborationStep.execute [("team_members", Value.list [])] =
      ⟨[], .ok CollaborationStep.pendingResult⟩ ∧
    DistributionStep.execute ext0 cfg0 [("awaiting_team_members", Value.bool true)] =
      ⟨[], .ok DistributionStep.skippedResult⟩ :=
  ⟨(empty_team_semantics ext0 cfg0).1 [("team_members", Value.list [])] (by rfl),
   (empty_team_semantics ext0 cfg0).2.1 [("awaiting_team_members", Value.bool true)]
     (Or.inl (by rfl))⟩

/-! ## Claim C6 — a malformed collaborator address fails the call early -/

theorem find_first_failing {α : Type} (p : α → Bool) :
    ∀ (good : List α) (bad : α) (rest : List α),
      (∀ g ∈ good, p g = false) → p bad = true →
      List.find? p (good ++ bad :: rest) = some bad := by
  intro good
  induction good with
  | nil =>
    intro bad rest _ hbad
    simp [List.find?, hbad]
  | cons g gs ih =>
    intro bad rest hgood hbad
    have hg : p g = false := hgood g (List.mem_cons_self g gs)
    simp only [List.cons_append, List.find?, hg]
    exact ih bad rest (fun x hx => hgood x (List.mem_cons_of_mem g hx)) hbad

/-- C6.  When every other input is valid but the collaborator list contains
a malformed address, `execute_workflow` raises the input-validation error
naming the first such address, with an empty step trace (step 1 never runs)
and an empty call trace (no external side effect), leaving the run state
untouched. -/
theorem malformed_email_fails_fast (ext : Ext) (config : Value) (gcp : String)
    (files : List String) (client title : String) (good rest : List String)
    (bad : String) (steps : Option (List Nat)) (today : String) (st : RunState)
    (hfe : files ≠ [])
    (hfv : ∀ f ∈ files, validate_file_path ext f = true)
    (hc : pyStrip client ≠ "")
    (ht : pyStrip title ≠ "")
    (hgood : ∀ g ∈ good, validate_email g = true)
    (hbad : validate_email bad = false) :
    execute_workflow ext config gcp files client title (some (good ++ bad :: rest))
        steps today st =
      ⟨[], [], .error (.valueError ("Invalid email address: " ++ bad)), st⟩ := by
  have hfind : files.find? (fun f => !validate_file_path ext f) = none :=
    List.find?_eq_none.mpr (fun f hf => by simp [hfv f hf])
  have hc0 : client ≠ "" := fun h => hc (by simp [h, pyStrip, isPySpace])
  have ht0 : title ≠ "" := fun h => ht (by simp [h, pyStrip, isPySpace])
  have hteam : List.find? (fun e => !validate_email e) (good ++ bad :: rest) =
      some bad :=
    find_first_failing (fun e => !validate_email e) good bad rest
      (fun g hg => by simp [hgood g hg]) (by simp [hbad])
  have hval : validate_inputs ext files client title (some (good ++ bad :: rest)) =
      .error (.valueError ("Invalid email address: " ++ bad)) := by
    simp [validate_inputs, hfe, hfind, hc0, hc, ht0, ht, hteam]
  simp [execute_workflow, hval]

/-- C6 (witness): one malformed address among valid collaborators. -/
theorem malformed_email_fails_fast_witness :
    execute_workflow ext0 cfg0 "gcp-sandpit-intelia" ["rfp.txt"] "Acme"
        "Cloud Migration" (some ["pm@example.com", "not-an-email"]) none
        "2026-10-12" initialState =
      ⟨[], [], .error (.valueError "Invalid email address: not-an-email"),
        initialState⟩ :=
  malformed_email_fails_fast ext0 cfg0 "gcp-sandpit-intelia" ["rfp.txt"] "Acme"
    "Cloud Migration" ["pm@example.com"] [] "not-an-email" none "2026-10-12"
    initialState (by simp) (by decide) (by decide) (by decide) (by decide)
    (by decide)

/-! ## Claim C7 — a step error halts the run and keeps prior results -/

theorem stepLoop_state_invariants (ext : Ext) (config : Value) :
    ∀ (nums : List Nat) (ctx : Ctx) (st : RunState),
      (stepLoop ext config nums ctx st).state.status = st.status ∧
      (stepLoop ext config nums ctx st).state.errors = st.errors ∧
      st.results <+: (stepLoop ext config nums ctx st).state.results := by
  intro nums
  induction nums with
  | nil => intro ctx st; exact ⟨rfl, rfl, List.prefix_rfl⟩
  | cons n rest ih =>
    intro ctx st
    simp only [stepLoop]
    cases hr : (execStep ext config n ctx).result with
    | error e => exact ⟨rfl, rfl, List.prefix_rfl⟩
    | ok p =>
      obtain ⟨ctx1, result⟩ := p
      have := ih (updateAll ctx1 (getUpdates result))
        {st with currentStep := n, results := st.results ++ [(stepKey n, result)]}
      refine ⟨this.1, this.2.1, ?_⟩
      exact (List.prefix_append st.results [(stepKey n, result)]).trans this.2.2

theorem stepLoop_error_shape (ext : Ext) (config : Value) :
    ∀ (nums : List Nat) (ctx : Ctx) (st : RunState) (e : Err),
      (stepLoop ext config nums ctx st).outcome = .error e →
      ∃ k, k + 1 ≤ nums.length ∧
        (stepLoop ext config nums ctx st).trace = nums.take (k + 1) ∧
        (stepLoop ext config nums ctx st).state.results.length =
          st.results.length + k := by
  intro nums
  induction nums with
  | nil => intro ctx st e h; cases h
  | cons n rest ih =>
    intro ctx st e h
    simp only [stepLoop] at h ⊢
    cases hr : (execStep ext config n ctx).result with
    | error e' =>
      simp only [hr]
      exact ⟨0, by simp, rfl, rfl⟩
    | ok p =>
      obtain ⟨ctx1, result⟩ := p
      rw [hr] at h
      obtain ⟨k, hk, htrace, hlen⟩ := ih (updateAll ctx1 (getUpdates result))
        {st with currentStep := n, results := st.results ++ [(stepKey n, result)]}
        e h
      refine ⟨k + 1, by simpa using Nat.succ_le_succ hk, ?_, ?_⟩
      · simp only [hr, List.take_succ_cons, htrace]
      · simp only [hr]
        simp at hlen
        omega

/-- C7.  If input validation passed and the run nevertheless ends in an
error, then the error came from a step: the status is `failed`, exactly the
error's message was appended to the error list, every result recorded before
the call is retained unchanged (the old results list is a prefix of the new
one), and the invoked steps are exactly the selection up to and including the
failing one — no later step runs. -/
theorem step_failure_halts_run (ext : Ext) (config : Value) (gcp : String)
    (files : List String) (client title : String)
    (team : Option (List String)) (steps : Option (List Nat)) (today : String)
    (st : RunState) (e : Err)
    (hv : validate_inputs ext files client title team = .ok ())
    (hr : (execute_workflow ext config gcp files client title team steps today
      st).result = .error e) :
    (execute_workflow ext config gcp files client title team steps today
        st).state.status = "failed" ∧
    (execute_workflow ext config gcp files client title team steps today
        st).state.errors = st.errors ++ [errMessage e] ∧
    st.results <+: (execute_workflow ext config gcp files client title team steps
        today st).state.results ∧
    ∃ k, k + 1 ≤ (steps.getD [1, 2, 3, 4, 5, 6, 7]).length ∧
      (execute_workflow ext config gcp files client title team steps today
        st).trace = (steps.getD [1, 2, 3, 4, 5, 6, 7]).take (k + 1) ∧
      (execute_workflow ext config gcp files client title team steps today
        st).state.results.length = st.results.length + k := by
  have hinv := stepLoop_state_invariants ext config (steps.getD [1, 2, 3, 4, 5, 6, 7])
    (seedContext files client title team today gcp) st
  simp only [execute_workflow, hv] at hr ⊢
  cases hout : (stepLoop ext config (steps.getD [1, 2, 3, 4, 5, 6, 7])
      (seedContext files client title team today gcp) st).outcome with
  | ok ctx =>
    rw [hout] at hr
    dsimp only at hr
    exact Except.noConfusion hr
  | error e2 =>
    rw [hout] at hr
    dsimp only at hr ⊢
    injection hr with he
    subst he
    have hshape := stepLoop_error_shape ext config (steps.getD [1, 2, 3, 4, 5, 6, 7])
      (seedContext files client title team today gcp) st e2 hout
    exact ⟨rfl, by rw [hinv.2.1], hinv.2.2, hshape⟩

/-- A run of step 3 alone: the seed context has no `subfolders`, so the step
fails and the loop stops with that one step invoked. -/
def runStep3Only : RunOut :=
  execute_workflow ext0 cfg0 "gcp-sandpit-intelia" ["rfp.txt"] "Acme" "T"
    (some []) (some [3]) "2026-10-12" initialState

/-- C7 (witness): the failing-step bookkeeping on the step-3-only run. -/
theorem step_failure_halts_run_witness :
    runStep3Only.state.status = "failed" ∧
    runStep3Only.state.errors =
      initialState.errors ++ [errMessage (.keyError "subfolders")] ∧
    initialState.results <+: runStep3Only.state.results ∧
    ∃ k, k + 1 ≤ ([3] : List Nat).length ∧
      runStep3Only.trace = ([3] : List Nat).take (k + 1) ∧
      runStep3Only.state.results.length = initialState.results.length + k :=
  step_failure_halts_run ext0 cfg0 "gcp-sandpit-intelia" ["rfp.txt"] "Acme" "T"
    (some []) (some [3]) "2026-10-12" initialState (.keyError "subfolders")
    (by rfl) (by rfl)

/-! ## Claim C10 — step 6's `validation_failed` branch is unreachable -/

/-- Input validation passing a collaborator list means every address on it
satisfies `validate_email` — the very predicate step 6 re-applies. -/
theorem validate_inputs_emails_ok (ext : Ext) (files : List String)
    (client title : String) (team : List String)
    (hv : validate_inputs ext files client title (some team) = .ok ()) :
    ∀ e ∈ team, validate_email e = true := by
  intro e he
  unfold validate_inputs at hv
  split at hv
  · cases hv
  · split at hv
    · cases hv
    · split at hv
      · cases hv
      · split at hv
        · cases hv
        · split at hv
          · rename_i heq
            exact Option.noConfusion heq
          · rename_i tm heq
            injection heq with heq'
            subst heq'
            split at hv
            · rename_i hEmpty
              rw [List.isEmpty_iff.mp hEmpty] at he
              exact absurd he (List.not_mem_nil e)
            · split at hv
              · cases hv
              · rename_i hfind
                have := List.find?_eq_none.mp hfind e he
                simpa using this

/-- Merging updates whose keys all differ from `k` leaves `k` untouched. -/
theorem lookup_updateAll_not_mem (c : Ctx) (us : List (String × Value)) (k : String)
    (h : ∀ kv ∈ us, kv.1 ≠ k) :
    lookup (updateAll c us) k = lookup c k := by
  induction us generalizing c with
  | nil => rfl
  | cons u us ih =>
    have h0 : u.1 ≠ k := h u (List.mem_cons_self u us)
    calc lookup (updateAll (setKey c u.1 u.2) us) k
        = lookup (setKey c u.1 u.2) k :=
          ih (setKey c u.1 u.2) (fun kv hkv => h kv (List.mem_cons_of_mem u hkv))
      _ = lookup c k := by simp [lookup_setKey, h0]

/-- No step, on success, changes the `team_members` entry of the context:
neither a step's in-place mutation (step 1) nor any step's merged
`context_updates` ever writes that key. -/
theorem execStep_preserves_team (ext : Ext) (config : Value) (n : Nat)
    (ctx : Ctx) (p : Ctx × Value)
    (h : (execStep ext config n ctx).result = .ok p) :
    lookup (updateAll p.1 (getUpdates p.2)) "team_members" =
      lookup ctx "team_members" := by
  rcases n with _ | _ | _ | _ | _ | _ | _ | _ | n
  · exact absurd h (by simp [execStep, Res.fail])
  · -- step 1
    obtain ⟨ctx2, res⟩ := p
    unfold execStep IngestionStep.execute at h
    obtain ⟨_, _, h⟩ := Res.ok_of_bind h
    obtain ⟨_, _, h⟩ := Res.ok_of_bind h
    obtain ⟨_, _, h⟩ := Res.ok_of_bind h
    obtain ⟨_, _, h⟩ := Res.ok_of_bind h
    obtain ⟨_, _, h⟩ := Res.ok_of_bind h
    obtain ⟨_, _, h⟩ := Res.ok_of_bind h
    obtain ⟨_, _, h⟩ := Res.ok_of_bind h
    obtain ⟨_, _, h⟩ := Res.ok_of_bind h
    obtain ⟨_, _, h⟩ := Res.ok_of_bind h
    obtain ⟨files, _, h⟩ := Res.ok_of_bind h
    obtain ⟨_, _, h⟩ := Res.ok_of_bind h
    rw [Res.result_pure] at h
    cases h
    rw [lookup_updateAll_not_mem _ _ "team_members" (by
      intro kv hkv
      simp [getUpdates, lookup] at hkv
      rcases hkv with h | h | h | h | h <;> simp [h])]
    cases files with
    | nil => rfl
    | cons f0 fs =>
      exact lookup_applyExtractedInfo ctx _ "team_members" (by decide) (by decide)
  · -- step 2
    obtain ⟨r, hr, h2⟩ := Res.ok_of_bind h
    rw [Res.result_pure] at h2
    cases h2
    unfold KnowledgeBaseStep.execute at hr
    obtain ⟨_, _, hr⟩ := Res.ok_of_bind hr
    obtain ⟨_, _, hr⟩ := Res.ok_of_bind hr
    obtain ⟨_, _, hr⟩ := Res.ok_of_bind hr
    rw [Res.result_pure] at hr
    cases hr
    rw [lookup_updateAll_not_mem _ _ "team_members" (by
      intro kv hkv
      simp [getUpdates, lookup] at hkv
      rcases hkv with h | h <;> simp [h])]
  · -- step 3
    obtain ⟨r, hr, h2⟩ := Res.ok_of_bind h
    rw [Res.result_pure] at h2
    cases h2
    unfold QuestionGenerationStep.execute at hr
    obtain ⟨_, _, hr⟩ := Res.ok_of_bind hr
    obtain ⟨_, _, hr⟩ := Res.ok_of_bind hr
    obtain ⟨_, _, hr⟩ := Res.ok_of_bind hr
    obtain ⟨_, _, hr⟩ := Res.ok_of_bind hr
    obtain ⟨_, _, hr⟩ := Res.ok_of_bind hr
    obtain ⟨_, _, hr⟩ := Res.ok_of_bind hr
    obtain ⟨_, _, hr⟩ := Res.ok_of_bind hr
    obtain ⟨_, _, hr⟩ := Res.ok_of_bind hr
    obtain ⟨_, _, hr⟩ := Res.ok_of_bind hr
    obtain ⟨_, _, hr⟩ := Res.ok_of_bind hr
    obtain ⟨_, _, hr⟩ := Res.ok_of_bind hr
    rw [Res.result_pure] at hr
    cases hr
    rw [lookup_updateAll_not_mem _ _ "team_members" (by
      intro kv hkv
      simp [getUpdates, lookup] at hkv
      rcases hkv with h | h | h <;> simp [h])]
  · -- step 4 never returns
    obtain ⟨r, hr, h2⟩ := Res.ok_of_bind h
    unfold AnswerGenerationStep.execute at hr
    obtain ⟨_, _, hr⟩ := Res.ok_of_bind hr
    obtain ⟨_, _, hr⟩ := Res.ok_of_bind hr
    obtain ⟨_, _, hr⟩ := Res.ok_of_bind hr
    simp [Res.fail] at hr
  · -- step 5
    obtain ⟨r, hr, h2⟩ := Res.ok_of_bind h
    rw [Res.result_pure] at h2
    cases h2
    unfold ProjectPlanStep.execute at hr
    obtain ⟨_, _, hr⟩ := Res.ok_of_bind hr
    obtain ⟨_, _, hr⟩ := Res.ok_of_bind hr
    obtain ⟨_, _, hr⟩ := Res.ok_of_bind hr
    obtain ⟨_, _, hr⟩ := Res.ok_of_bind hr
    obtain ⟨_, _, hr⟩ := Res.ok_of_bind hr
    obtain ⟨_, _, hr⟩ := Res.ok_of_bind hr
    obtain ⟨_, _, hr⟩ := Res.ok_of_bind hr
    obtain ⟨_, _, hr⟩ := Res.ok_of_bind hr
    obtain ⟨_, _, hr⟩ := Res.ok_of_bind hr
    obtain ⟨_, _, hr⟩ := Res.ok_of_bind hr
    obtain ⟨_, _, hr⟩ := Res.ok_of_bind hr
    obtain ⟨_, _, hr⟩ := Res.ok_of_bind hr
    rw [Res.result_pure] at hr
    cases hr
    rw [lookup_updateAll_not_mem _ _ "team_members" (by
      intro kv hkv
      simp [getUpdates, lookup] at hkv
      rcases hkv with h | h | h | h <;> simp [h])]
  · -- step 6
    obtain ⟨r, hr, h2⟩ := Res.ok_of_bind h
    rw [Res.result_pure] at h2
    cases h2
    unfold CollaborationStep.execute at hr
    by_cases hcond : (!valueTruthy ((lookup ctx "team_members").getD (.list []))) = true
    · rw [if_pos hcond] at hr
      rw [Res.result_pure] at hr
      cases hr
      rw [lookup_updateAll_not_mem _ _ "team_members" (by
        intro kv hkv
        simp [getUpdates, CollaborationStep.pendingResult, lookup] at hkv
        simp [hkv])]
    · rw [if_neg hcond] at hr
      obtain ⟨members, _, hr⟩ := Res.ok_of_bind hr
      by_cases hinv :
          (!(members.filter (fun v => !validateEmailValue v)).isEmpty) = true
      · rw [if_pos hinv] at hr
        rw [Res.result_pure] at hr
        cases hr
        rw [lookup_updateAll_not_mem _ _ "team_members" (by
          intro kv hkv
          simp [getUpdates, lookup] at hkv
          rcases hkv with h | h <;> simp [h])]
      · rw [if_neg hinv] at hr
        rw [Res.result_pure] at hr
        cases hr
        rw [lookup_updateAll_not_mem _ _ "team_members" (by
          intro kv hkv
          simp [getUpdates, lookup] at hkv
          rcases hkv with h | h <;> simp [h])]
  · -- step 7
    obtain ⟨r, hr, h2⟩ := Res.ok_of_bind h
    rw [Res.result_pure] at h2
    cases h2
    unfold DistributionStep.execute at hr
    by_cases hcond :
        (!valueTruthy ((lookup ctx "validated_team_members").getD (.list []))) = true
    · rw [if_pos hcond] at hr
      rw [Res.result_pure] at hr
      cases hr
      rw [lookup_updateAll_not_mem _ _ "team_members" (by
        intro kv hkv
        simp [getUpdates, DistributionStep.skippedResult, lookup] at hkv)]
    · rw [if_neg hcond] at hr
      obtain ⟨_, _, hr⟩ := Res.ok_of_bind hr
      obtain ⟨_, _, hr⟩ := Res.ok_of_bind hr
      obtain ⟨_, _, hr⟩ := Res.ok_of_bind hr
      obtain ⟨_, _, hr⟩ := Res.ok_of_bind hr
      obtain ⟨_, _, hr⟩ := Res.ok_of_bind hr
      obtain ⟨_, _, hr⟩ := Res.ok_of_bind hr
      by_cases hmail :
          valueTruthy (getConfigValue config "email_enabled" (.bool true)) = true
      · rw [if_pos hmail] at hr
        obtain ⟨_, _, hr⟩ := Res.ok_of_bind hr
        obtain ⟨_, _, hr⟩ := Res.ok_of_bind hr
        obtain ⟨_, _, hr⟩ := Res.ok_of_bind hr
        simp only [Res.result_bind, Res.result_pure, Except.ok.injEq] at hr
        cases hr
        rw [lookup_updateAll_not_mem _ _ "team_members" (by
          intro kv hkv
          simp [getUpdates, lookup] at hkv
          rcases hkv with h | h | h <;> simp [h])]
      · rw [if_neg hmail] at hr
        simp only [Res.result_bind, Res.result_pure, Except.ok.injEq] at hr
        cases hr
        rw [lookup_updateAll_not_mem _ _ "team_members" (by
          intro kv hkv
          simp [getUpdates, lookup] at hkv
          rcases hkv with h | h | h <;> simp [h])]
  · exact absurd h (by simp [execStep, Res.fail])

/-- Step 6 on any context whose `team_members` entry is a list of addresses
that all satisfy `validate_email` never returns `validation_failed`. -/
theorem collab_on_valid_team (team : List String) (ctx : Ctx)
    (hall : ∀ e ∈ team, validate_email e = true)
    (hctx : lookup ctx "team_members" = some (strListV team)) :
    ∀ v, (CollaborationStep.execute ctx).result = .ok v →
      resultStatus v ≠ some (.str "validation_failed") := by
  have hvalid : ∀ v ∈ team.map Value.str, validateEmailValue v = true := by
    intro v hvm
    obtain ⟨e, he, rfl⟩ := List.mem_map.mp hvm
    simpa [validateEmailValue] using hall e he
  intro v hok
  cases hteam : team with
  | nil =>
    rw [hteam] at hctx
    have : CollaborationStep.execute ctx = ⟨[], .ok CollaborationStep.pendingResult⟩ := by
      simp [CollaborationStep.execute, hctx, strListV, valueTruthy, Res.pure]
    rw [this] at hok
    cases hok
    simp [CollaborationStep.pendingResult, resultStatus, lookup]
  | cons t ts =>
    rw [hteam] at hctx hvalid
    have hfilter : ((t :: ts).map Value.str).filter validateEmailValue =
        (t :: ts).map .str :=
      List.filter_eq_self.mpr hvalid
    have hinvalid :
        ((t :: ts).map Value.str).filter (fun v => !validateEmailValue v) = [] := by
      rw [List.filter_eq_nil_iff]
      intro v hvm
      simp [hvalid v hvm]
    simp only [List.map_cons] at hfilter hinvalid
    have : CollaborationStep.execute ctx = ⟨[], .ok (.dict [
        ("status", .str "success"),
        ("validated_members", .list ((t :: ts).map .str)),
        ("context_updates", .dict [
          ("validated_team_members", .list ((t :: ts).map .str)),
          ("awaiting_team_members", .bool false)])])⟩ := by
      simp [CollaborationStep.execute, hctx, strListV, valueTruthy, hfilter,
        hinvalid, Res.pure, Bind.bind, Res.bind]
    rw [this] at hok
    cases hok
    simp [resultStatus, lookup]

/-- No step, run on a context whose `team_members` entry is a validated list,
ever records a result with status `validation_failed`. -/
theorem execStep_status_ok (ext : Ext) (config : Value) (team : List String)
    (n : Nat) (ctx : Ctx) (p : Ctx × Value)
    (hall : ∀ e ∈ team, validate_email e = true)
    (hctx : lookup ctx "team_members" = some (strListV team))
    (h : (execStep ext config n ctx).result = .ok p) :
    resultStatus p.2 ≠ some (.str "validation_failed") := by
  rcases n with _ | _ | _ | _ | _ | _ | _ | _ | n
  · exact absurd h (by simp [execStep, Res.fail])
  · -- step 1
    obtain ⟨ctx2, res⟩ := p
    unfold execStep IngestionStep.execute at h
    obtain ⟨_, _, h⟩ := Res.ok_of_bind h
    obtain ⟨_, _, h⟩ := Res.ok_of_bind h
    obtain ⟨_, _, h⟩ := Res.ok_of_bind h
    obtain ⟨_, _, h⟩ := Res.ok_of_bind h
    obtain ⟨_, _, h⟩ := Res.ok_of_bind h
    obtain ⟨_, _, h⟩ := Res.ok_of_bind h
    obtain ⟨_, _, h⟩ := Res.ok_of_bind h
    obtain ⟨_, _, h⟩ := Res.ok_of_bind h
    obtain ⟨_, _, h⟩ := Res.ok_of_bind h
    obtain ⟨files, _, h⟩ := Res.ok_of_bind h
    obtain ⟨_, _, h⟩ := Res.ok_of_bind h
    rw [Res.result_pure] at h
    cases h
    simp [resultStatus, lookup]
  · -- step 2
    obtain ⟨r, hr, h2⟩ := Res.ok_of_bind h
    rw [Res.result_pure] at h2
    cases h2
    unfold KnowledgeBaseStep.execute at hr
    obtain ⟨_, _, hr⟩ := Res.ok_of_bind hr
    obtain ⟨_, _, hr⟩ := Res.ok_of_bind hr
    obtain ⟨_, _, hr⟩ := Res.ok_of_bind hr
    rw [Res.result_pure] at hr
    cases hr
    simp [resultStatus, lookup]
  · -- step 3
    obtain ⟨r, hr, h2⟩ := Res.ok_of_bind h
    rw [Res.result_pure] at h2
    cases h2
    unfold QuestionGenerationStep.execute at hr
    obtain ⟨_, _, hr⟩ := Res.ok_of_bind hr
    obtain ⟨_, _, hr⟩ := Res.ok_of_bind hr
    obtain ⟨_, _, hr⟩ := Res.ok_of_bind hr
    obtain ⟨_, _, hr⟩ := Res.ok_of_bind hr
    obtain ⟨_, _, hr⟩ := Res.ok_of_bind hr
    obtain ⟨_, _, hr⟩ := Res.ok_of_bind hr
    obtain ⟨_, _, hr⟩ := Res.ok_of_bind hr
    obtain ⟨_, _, hr⟩ := Res.ok_of_bind hr
    obtain ⟨_, _, hr⟩ := Res.ok_of_bind hr
    obtain ⟨_, _, hr⟩ := Res.ok_of_bind hr
    obtain ⟨_, _, hr⟩ := Res.ok_of_bind hr
    rw [Res.result_pure] at hr
    cases hr
    simp [resultStatus, lookup]
  · -- step 4 never returns
    obtain ⟨r, hr, h2⟩ := Res.ok_of_bind h
    unfold AnswerGenerationStep.execute at hr
    obtain ⟨_, _, hr⟩ := Res.ok_of_bind hr
    obtain ⟨_, _, hr⟩ := Res.ok_of_bind hr
    obtain ⟨_, _, hr⟩ := Res.ok_of_bind hr
    simp [Res.fail] at hr
  · -- step 5
    obtain ⟨r, hr, h2⟩ := Res.ok_of_bind h
    rw [Res.result_pure] at h2
    cases h2
    unfold ProjectPlanStep.execute at hr
    obtain ⟨_, _, hr⟩ := Res.ok_of_bind hr
    obtain ⟨_, _, hr⟩ := Res.ok_of_bind hr
    obtain ⟨_, _, hr⟩ := Res.ok_of_bind hr
    obtain ⟨_, _, hr⟩ := Res.ok_of_bind hr
    obtain ⟨_, _, hr⟩ := Res.ok_of_bind hr
    obtain ⟨_, _, hr⟩ := Res.ok_of_bind hr
    obtain ⟨_, _, hr⟩ := Res.ok_of_bind hr
    obtain ⟨_, _, hr⟩ := Res.ok_of_bind hr
    obtain ⟨_, _, hr⟩ := Res.ok_of_bind hr
    obtain ⟨_, _, hr⟩ := Res.ok_of_bind hr
    obtain ⟨_, _, hr⟩ := Res.ok_of_bind hr
    obtain ⟨_, _, hr⟩ := Res.ok_of_bind hr
    rw [Res.result_pure] at hr
    cases hr
    simp [resultStatus, lookup]
  · -- step 6: delegated to the team-validity argument
    obtain ⟨r, hr, h2⟩ := Res.ok_of_bind h
    rw [Res.result_pure] at h2
    cases h2
    exact collab_on_valid_team team ctx hall hctx r hr
  · -- step 7
    obtain ⟨r, hr, h2⟩ := Res.ok_of_bind h
    rw [Res.result_pure] at h2
    cases h2
    unfold DistributionStep.execute at hr
    by_cases hcond :
        (!valueTruthy ((lookup ctx "validated_team_members").getD (.list []))) = true
    · rw [if_pos hcond] at hr
      rw [Res.result_pure] at hr
      cases hr
      simp [DistributionStep.skippedResult, resultStatus, lookup]
    · rw [if_neg hcond] at hr
      obtain ⟨_, _, hr⟩ := Res.ok_of_bind hr
      obtain ⟨_, _, hr⟩ := Res.ok_of_bind hr
      obtain ⟨_, _, hr⟩ := Res.ok_of_bind hr
      obtain ⟨_, _, hr⟩ := Res.ok_of_bind hr
      obtain ⟨_, _, hr⟩ := Res.ok_of_bind hr
      obtain ⟨_, _, hr⟩ := Res.ok_of_bind hr
      by_cases hmail :
          valueTruthy (getConfigValue config "email_enabled" (.bool true)) = true
      · rw [if_pos hmail] at hr
        obtain ⟨_, _, hr⟩ := Res.ok_of_bind hr
        obtain ⟨_, _, hr⟩ := Res.ok_of_bind hr
        obtain ⟨_, _, hr⟩ := Res.ok_of_bind hr
        simp only [Res.result_bind, Res.result_pure, Except.ok.injEq] at hr
        cases hr
        simp [resultStatus, lookup]
      · rw [if_neg hmail] at hr
        simp only [Res.result_bind, Res.result_pure, Except.ok.injEq] at hr
        cases hr
        simp [resultStatus, lookup]
  · exact absurd h (by simp [execStep, Res.fail])

/-- Loop invariant: starting from a context carrying a validated
`team_members` list and a result store free of `validation_failed`, the step
loop keeps the store free of it, for every step selection and oracle. -/
theorem stepLoop_status_ok (ext : Ext) (config : Value) (team : List String)
    (hall : ∀ e ∈ team, validate_email e = true) :
    ∀ (steps : List Nat) (ctx : Ctx) (st : RunState),
      lookup ctx "team_members" = some (strListV team) →
      (∀ q ∈ st.results, resultStatus q.2 ≠ some (.str "validation_failed")) →
      ∀ q ∈ (stepLoop ext config steps ctx st).state.results,
        resultStatus q.2 ≠ some (.str "validation_failed") := by
  intro steps
  induction steps with
  | nil =>
    intro ctx st _ hst q hq
    exact hst q hq
  | cons n rest ih =>
    intro ctx st hctx hst q hq
    rw [stepLoop] at hq
    cases hres : (execStep ext config n ctx).result with
    | error e =>
      rw [hres] at hq
      exact hst q hq
    | ok p =>
      obtain ⟨ctx1, result⟩ := p
      rw [hres] at hq
      dsimp only at hq
      refine ih (updateAll ctx1 (getUpdates result))
        _ ?_ ?_ q hq
      · have := execStep_preserves_team ext config n ctx (ctx1, result) hres
        rw [this, hctx]
      · intro q hq2
        rcases List.mem_append.mp hq2 with hq2 | hq2
        · exact hst q hq2
        · rcases List.mem_singleton.mp hq2 with rfl
          exact execStep_status_ok ext config team n ctx (ctx1, result) hall hctx hres

/-- Run-level statement: any `execute_workflow` call that passes input
validation, whatever oracle, configuration and step selection, never records
a step result with status `validation_failed`. -/
theorem execute_workflow_status_ok (ext : Ext) (config : Value)
    (gcp : String) (files : List String) (client title : String)
    (team : List String) (stepsToRun : Option (List Nat)) (today : String)
    (hv : validate_inputs ext files client title (some team) = .ok ()) :
    ∀ q ∈ (execute_workflow ext config gcp files client title (some team)
        stepsToRun today initialState).state.results,
      resultStatus q.2 ≠ some (.str "validation_failed") := by
  intro q hq
  unfold execute_workflow at hq
  rw [hv] at hq
  dsimp only at hq
  have hseed : lookup (seedContext files client title (some team) today gcp)
      "team_members" = some (strListV team) := by rfl
  have hall := validate_inputs_emails_ok ext files client title team hv
  have hmain := stepLoop_status_ok ext config team hall
    (stepsToRun.getD [1, 2, 3, 4, 5, 6, 7])
    (seedContext files client title (some team) today gcp) initialState hseed
    (by intro q hq0; exact absurd hq0 (List.not_mem_nil q))
  cases hout : (stepLoop ext config (stepsToRun.getD [1, 2, 3, 4, 5, 6, 7])
      (seedContext files client title (some team) today gcp) initialState).outcome with
  | ok c =>
    rw [hout] at hq
    dsimp only at hq
    exact hmain q hq
  | error e =>
    rw [hout] at hq
    dsimp only at hq
    exact hmain q hq

/-- C10.  On a context seeded by `execute_workflow` (so `team_members` is the
validated list), `CollaborationStep.execute` returns `pending_input` for the
empty list and `success` for a non-empty one; the `validation_failed` branch
cannot be taken, because validation already required every address to pass
the same `validate_email` predicate.  The last clause lifts this to whole
runs: no `execute_workflow` call that passes validation ever records a step
result with status `validation_failed`, for any oracle, configuration and
step selection. -/
theorem validation_failed_unreachable (ext : Ext) (files : List String)
    (client title : String) (team : List String) (ctx : Ctx)
    (hv : validate_inputs ext files client title (some team) = .ok ())
    (hctx : lookup ctx "team_members" = some (strListV team)) :
    (team = [] →
      CollaborationStep.execute ctx = ⟨[], .ok CollaborationStep.pendingResult⟩) ∧
    (team ≠ [] →
      CollaborationStep.execute ctx = ⟨[], .ok (.dict [
        ("status", .str "success"),
        ("validated_members", .list (team.map .str)),
        ("context_updates", .dict [
          ("validated_team_members", .list (team.map .str)),
          ("awaiting_team_members", .bool false)])])⟩) ∧
    (∀ v, (CollaborationStep.execute ctx).result = .ok v →
      resultStatus v ≠ some (.str "validation_failed")) ∧
    (∀ (config : Value) (gcp : String) (stepsToRun : Option (List Nat))
        (today : String),
      ∀ q ∈ (execute_workflow ext config gcp files client title (some team)
          stepsToRun today initialState).state.results,
        resultStatus q.2 ≠ some (.str "validation_failed")) := by
  have hall := validate_inputs_emails_ok ext files client title team hv
  have hvalid : ∀ v ∈ team.map Value.str, validateEmailValue v = true := by
    intro v hvm
    obtain ⟨e, he, rfl⟩ := List.mem_map.mp hvm
    simpa [validateEmailValue] using hall e he
  have hpend : team = [] →
      CollaborationStep.execute ctx = ⟨[], .ok CollaborationStep.pendingResult⟩ := by
    intro h0
    subst h0
    simp [CollaborationStep.execute, hctx, strListV, valueTruthy, Res.pure]
  have hsucc : team ≠ [] →
      CollaborationStep.execute ctx = ⟨[], .ok (.dict [
        ("status", .str "success"),
        ("validated_members", .list (team.map .str)),
        ("context_updates", .dict [
          ("validated_team_members", .list (team.map .str)),
          ("awaiting_team_members", .bool false)])])⟩ := by
    intro hne
    have hfilter : (team.map Value.str).filter validateEmailValue = team.map .str :=
      List.filter_eq_self.mpr hvalid
    have hinvalid : (team.map Value.str).filter (fun v => !validateEmailValue v) = [] := by
      rw [List.filter_eq_nil_iff]
      intro v hvm
      simp [hvalid v hvm]
    cases team with
    | nil => exact absurd rfl hne
    | cons t ts =>
      simp only [List.map_cons] at hfilter hinvalid
      simp [CollaborationStep.execute, hctx, strListV, valueTruthy, hfilter,
        hinvalid, Res.pure, Bind.bind, Res.bind]
  refine ⟨hpend, hsucc, collab_on_valid_team team ctx hall hctx, ?_⟩
  intro config gcp stepsToRun today
  exact execute_workflow_status_ok ext config gcp files client title team
    stepsToRun today hv

/-- A context carrying one validated collaborator, as `execute_workflow`
seeds it. -/
def oneMemberCtx : Ctx := [("team_members", strListV ["pm@example.com"])]

/-- C10 (witness): the non-empty clause at a concrete validated context. -/
theorem validation_failed_unreachable_witness :
    CollaborationStep.execute oneMemberCtx = ⟨[], .ok (.dict [
      ("status", .str "success"),
      ("validated_members", .list (["pm@example.com"].map Value.str)),
      ("context_updates", .dict [
        ("validated_team_members", .list (["pm@example.com"].map Value.str)),
        ("awaiting_team_members", .bool false)])])⟩ :=
  (validation_failed_unreachable ext0 ["rfp.txt"] "Acme" "T" ["pm@example.com"]
    oneMemberCtx (by rfl) (by rfl)).2.1 (by simp)

/-! ## Claim C2 — `resume_workflow` and input validation -/

/-- C2 (counterexample).  A resumed context whose collaborator list holds
one malformed address makes `resume_workflow` raise the input-validation
error before any step runs and before any external call: the claim that
`resume_workflow` executes no input-validation check is false. -/
theorem resume_validates_inputs_cex :
    (resume_workflow ext0 cfg0 "gcp-sandpit-intelia" badEmailCtx 6 "2026-10-12"
        initialState).result =
      .error (.valueError "Invalid email address: not-an-email") ∧
    (resume_workflow ext0 cfg0 "gcp-sandpit-intelia" badEmailCtx 6 "2026-10-12"
        initialState).trace = [] ∧
    (resume_workflow ext0 cfg0 "gcp-sandpit-intelia" badEmailCtx 6 "2026-10-12"
        initialState).calls = [] :=
  ⟨by rfl, by rfl, by rfl⟩

/-- C2 (amended).  `resume_workflow` delegates to `execute_workflow` with
the four top-level fields it extracts from the supplied context, so it does
run the same top-level input validation (file existence, non-empty client
and title, collaborator address syntax) before its first selected step; when
that validation fails, the call returns the validation error with no step
invoked and no external call made.  What it does not validate are
step-produced context keys. -/
theorem resume_delegates_validation (ext : Ext) (config : Value) (gcp : String)
    (ctx : Ctx) (fromStep : Nat) (today : String) (st : RunState)
    (files : List String) (client title : String)
    (team : Option (List String)) (e : Err)
    (hf : ctxStrList ctx "rfp_files" = .ok files)
    (hc : ctxStr ctx "client_name" = .ok client)
    (ht : ctxStr ctx "rfp_title" = .ok title)
    (htm : ctxTeam ctx = .ok team) :
    resume_workflow ext config gcp ctx fromStep today st =
      execute_workflow ext config gcp files client title team
        (some (List.range' fromStep (8 - fromStep))) today st ∧
    (validate_inputs ext files client title team = .error e →
      resume_workflow ext config gcp ctx fromStep today st = ⟨[], [], .error e, st⟩) := by
  have hdeleg : resume_workflow ext config gcp ctx fromStep today st =
      execute_workflow ext config gcp files client title team
        (some (List.range' fromStep (8 - fromStep))) today st := by
    simp [resume_workflow, hf, hc, ht, htm, Bind.bind, Except.bind]
  refine ⟨hdeleg, fun hv => ?_⟩
  rw [hdeleg]
  simp [execute_workflow, hv]

/-- C2 (witness): the amended statement at the malformed-address context. -/
theorem resume_delegates_validation_witness :
    resume_workflow ext0 cfg0 "gcp-sandpit-intelia" badEmailCtx 4 "2026-10-12"
      initialState =
      ⟨[], [], .error (.valueError "Invalid email address: not-an-email"),
        initialState⟩ :=
  (resume_delegates_validation ext0 cfg0 "gcp-sandpit-intelia" badEmailCtx 4
    "2026-10-12" initialState ["rfp.txt"] "Acme" "T" (some ["not-an-email"])
    (.valueError "Invalid email address: not-an-email")
    (by rfl) (by rfl) (by rfl) (by rfl)).2 (by rfl)

end RFP
